import Mathlib

/-!
Verification development for the rentals-sdk backend.

Strings manipulated character-by-character by the source (public identifiers)
are modelled as lists of characters; route-level strings stay as Lean strings.
Monetary amounts (Python floats holding decimal money values) are modelled as
rationals.  The cryptographically random character choices of the id generator
are modelled by an explicit supply of natural numbers (one per drawn
character), so every definition stays executable and deterministic.
-/

namespace RentalsSdk

/-! ## app/utils/id_generator.py -/

/-- Base62 alphabet from id_generator.py: string.digits, string.ascii_uppercase,
string.ascii_lowercase, concatenated in that order. -/
def base62Chars : List Char :=
  "0123456789ABCDEFGHIJKLMNOPQRSTUVWXYZabcdefghijklmnopqrstuvwxyz".data

/-- The random part of a public id: length draws from the base62 alphabet,
the randomness source modelled as a supply of naturals. -/
def randomPart (len : Nat) (f : Nat → Nat) : List Char :=
  (List.range len).map (fun i => base62Chars.getD (f i % 62) '0')

/-- Python s.strip() emptiness test: a string is blank when every character is
whitespace (the empty string included). -/
def isBlank (s : List Char) : Bool :=
  s.all (fun c => c.isWhitespace)

/-- make_public_id from id_generator.py: reject a blank prefix, reject a length
outside 10..14, otherwise produce prefix, underscore, then length base62
characters.  ValueError is modelled as Except.error. -/
def make_public_id (pfx : List Char) (len : Nat) (f : Nat → Nat) :
    Except String (List Char) :=
  if isBlank pfx then .error "Prefix cannot be empty"
  else if len < 10 || 14 < len then .error "Length must be between 10 and 14"
  else .ok (pfx ++ '_' :: randomPart len f)

/-- Python s.split(sep, 1): split at the first occurrence of a character,
returning none when the character does not occur. -/
def splitFirst (c : Char) : List Char → Option (List Char × List Char)
  | [] => none
  | x :: xs =>
    if x == c then some ([], xs)
    else match splitFirst c xs with
      | none => none
      | some (a, b) => some (x :: a, b)

/-- validate_public_id from id_generator.py: require an underscore, compare the
part before the first underscore with the expected prefix when one is given,
and require the rest to be 10..14 base62 characters. -/
def validate_public_id (pid : List Char) (expected : Option (List Char)) : Bool :=
  match splitFirst '_' pid with
  | none => false
  | some (p, r) =>
    (match expected with
     | some e => p == e
     | none => true)
    && decide (10 ≤ r.length) && decide (r.length ≤ 14)
    && r.all (fun c => base62Chars.contains c)

/-- extract_prefix from id_generator.py: the part before the first underscore,
provided the id validates (with no expected prefix). -/
def extract_prefix (pid : List Char) : Option (List Char) :=
  if validate_public_id pid none then some (pid.takeWhile (fun c => c != '_'))
  else none

/-! ## Ledger data model

Rows mirror the Supabase tables touched by the payment/webhook code.  Integer
row ids are naturals; user identities (auth uuids) are strings; monetary
amounts are rationals; nullable columns are options.  Timestamps are threaded
in as opaque strings through a clock record. -/

/-- Wall-clock inputs of a request: datetime.now().isoformat() and the
formatted year-month period string. -/
structure Clock where
  now : String
  period : String
deriving Repr, DecidableEq

structure Booking where
  id : Nat
  public_id : String
  status_id : Option Nat
  payment_status : Option String
  guest_user_id : String
  unit_id : Nat
  total_amount : ℚ
deriving Repr, DecidableEq

structure UnitRow where
  id : Nat
  public_id : String
  title : String
  owner_id : String
deriving Repr, DecidableEq

structure UserRow where
  id : String
  public_id : String
  full_name : String
  email : String
  phone : Option String
deriving Repr, DecidableEq

structure Debtor where
  id : Nat
  public_id : String
  name : String
  full_name : String
  email : String
  phone : Option String
  property_id : Nat
  monthly_rent : ℚ
  debt_amount : ℚ
  status : String
  owner_id : String
deriving Repr, DecidableEq

structure PaymentRow where
  id : Nat
  public_id : String
  debtor_id : Option Nat
  period : String
  amount : Option ℚ
  currency_id : Option Nat
  method : String
  payment_origin : String
  status_id : Option Nat
  reference : String
  invoice_id : String
  payment_date : Option String
  paid_at : Option String
deriving Repr, DecidableEq

structure PaymentDetail where
  id : Nat
  public_id : String
  payment_id : Nat
  payer_name : String
  payer_email : String
  payment_method_code : String
  payment_method_name : String
  transaction_id : String
  external_reference : String
  created_by : Option String
deriving Repr, DecidableEq

structure NotificationRow where
  id : Nat
  public_id : String
  user_id : String
  title : String
  message : String
  action_url : String
  is_read : Bool
  type_id : Option Nat
deriving Repr, DecidableEq

/-- A code catalog row (process_status, payment_status, currencies,
notification_types). -/
structure CatalogRow where
  id : Nat
  code : String
deriving Repr, DecidableEq

/-- Raw provider webhook payload as read by payment_service.py: a dict whose
keys are fetched with .get, so every field is optional. -/
structure ProviderPayload where
  payment_status : Option String
  order_id : Option String
  actually_paid : Option ℚ
  ptype : Option String
  event_type : Option String
  data_id : Option String
deriving Repr, DecidableEq

structure Invoice where
  id : Nat
  public_id : String
  payment_id : Nat
  amount : ℚ
  status : String
  paid_at : Option String
  metadata : Option ProviderPayload
deriving Repr, DecidableEq

structure WebhookLog where
  id : Nat
  provider : String
  event_type : String
  processed : Bool
  error_message : Option String
deriving Repr, DecidableEq

/-- The database state: one list per table plus a fresh-id supply.  The random
base62 public ids drawn by make_public_id for new rows are abstracted to a
counter-derived supply (their content is never branched on by the code under
verification). -/
structure DBState where
  bookings : List Booking
  units : List UnitRow
  users : List UserRow
  debtors : List Debtor
  payments : List PaymentRow
  payment_details : List PaymentDetail
  notifications : List NotificationRow
  invoices : List Invoice
  webhook_logs : List WebhookLog
  process_status : List CatalogRow
  payment_status_table : List CatalogRow
  currencies : List CatalogRow
  notification_types : List CatalogRow
  nextId : Nat
deriving Repr, DecidableEq

/-- Python s.startswith(pre), computed structurally on the character lists
(the byte-position based String.startsWith does not reduce definitionally). -/
def strStartsWith (s pre : String) : Bool :=
  pre.data.isPrefixOf s.data

/-- Python s.split(sep) for a one-character separator, computed structurally
on the character list. -/
def splitChar (c : Char) : List Char → List (List Char)
  | [] => [[]]
  | x :: xs =>
    match splitChar c xs with
    | [] => [[]]
    | h :: t => if x == c then [] :: h :: t else (x :: h) :: t

/-! ## Query helpers (supabase select ... eq ... building blocks) -/

/-- select id from a catalog table where code matches, first row. -/
def lookupCode (t : List CatalogRow) (c : String) : Option Nat :=
  ((t.filter (fun r => r.code == c)).head?).map (fun r => r.id)

def findBooking (s : DBState) (pid : String) : Option Booking :=
  (s.bookings.filter (fun b => b.public_id == pid)).head?

def findUnit (s : DBState) (uid : Nat) : Option UnitRow :=
  (s.units.filter (fun u => u.id == uid)).head?

def findUser (s : DBState) (uid : String) : Option UserRow :=
  (s.users.filter (fun u => u.id == uid)).head?

def findInvoice (s : DBState) (pid : String) : Option Invoice :=
  (s.invoices.filter (fun i => i.public_id == pid)).head?

/-- Counter-derived public id for a freshly inserted row. -/
def freshPublicId (pfx : String) (n : Nat) : String :=
  pfx ++ "_" ++ toString n

/-- bookings.update over rows matching the id: payment_status is always
written (possibly to null); status_id is written only when a new one was
resolved, mirroring the conditional insertion into update_data. -/
def bookingUpdateFn (bid : Nat) (ps : Option String) (st : Option Nat) :
    Booking → Booking := fun b =>
  if b.id == bid then
    { b with payment_status := ps,
             status_id := match st with | some v => some v | none => b.status_id }
  else b

def applyBookingUpdate (s : DBState) (bid : Nat) (ps : Option String)
    (st : Option Nat) : DBState :=
  { s with bookings := s.bookings.map (bookingUpdateFn bid ps st) }

/-- table insert helpers: append the row and advance the id supply. -/
def insertDebtor (s : DBState) (d : Debtor) : DBState :=
  { s with debtors := s.debtors ++ [d], nextId := s.nextId + 1 }

def insertPayment (s : DBState) (p : PaymentRow) : DBState :=
  { s with payments := s.payments ++ [p], nextId := s.nextId + 1 }

def insertPaymentDetail (s : DBState) (d : PaymentDetail) : DBState :=
  { s with payment_details := s.payment_details ++ [d], nextId := s.nextId + 1 }

def insertNotification (s : DBState) (n : NotificationRow) : DBState :=
  { s with notifications := s.notifications ++ [n], nextId := s.nextId + 1 }

/-! ## app/routers/webhooks.py - NOWPayments route -/

/-- Body model of the NOWPayments webhook (PaymentWebhookRequest): required
order_id, payment_id, payment_status, amount, currency, plus the optional
fields the handler actually reads. -/
structure PaymentWebhookRequest where
  order_id : String
  payment_id : String
  payment_status : String
  amount : ℚ
  currency : String
  crypto_amount : Option ℚ
  crypto_currency : Option String
  actually_paid : Option ℚ
deriving Repr, DecidableEq

inductive NPResponse
  | success (booking_public_id : String) (new_payment_status : String)
  | demoSuccess
  | httpError (code : Nat) (detail : String)
deriving Repr, DecidableEq

/-- Extraction of the booking public id from order_id in nowpayments_webhook:
ALQ-bkg_xxx-ts takes the middle part, ALQ-unt_xxx-ts resolves the most recent
booking of the unit, bkg_xxx is used directly, anything else is invalid. -/
def extractBookingPublicIdNP (s : DBState) (order_id : String) : Option String :=
  if strStartsWith order_id "ALQ-" then
    let parts := splitChar '-' order_id.data
    if 2 ≤ parts.length then
      let p1 : String := ⟨parts.getD 1 []⟩
      if strStartsWith p1 "bkg_" then some p1
      else if strStartsWith p1 "unt_" then
        ((s.bookings.filter (fun b =>
            ((findUnit s b.unit_id).map (fun u => u.public_id)) == some p1)).getLast?).map
          (fun b => b.public_id)
      else none
    else none
  else if strStartsWith order_id "bkg_" then some order_id
  else none

/-- The payment-record block of nowpayments_webhook, executed when
payment_status is finished: resolve booking details via the units inner join,
find-or-create a debtor keyed to the property owner, find-or-create a second
debtor keyed to the paying guest, then insert a payment row and a
payment_details row for each of the two debtors. -/
def npCreatePaymentRecords (s : DBState) (b : Booking)
    (req : PaymentWebhookRequest) (clk : Clock) : DBState :=
  match findUnit s b.unit_id with
  | none => s
  | some u =>
    let userOpt := findUser s b.guest_user_id
    let email := (userOpt.map (fun w => w.email)).getD ""
    let fullName := (userOpt.map (fun w => w.full_name)).getD "Unknown"
    let phone := userOpt.bind (fun w => w.phone)
    let d1? := (s.debtors.filter (fun d =>
        d.property_id == b.unit_id && d.email == email)).head?
    let ownerDebtor : Debtor := {
      id := s.nextId, public_id := freshPublicId "deb" s.nextId,
      name := fullName, full_name := fullName, email := email,
      phone := phone, property_id := b.unit_id,
      monthly_rent := b.total_amount, debt_amount := 0,
      status := "current", owner_id := u.owner_id }
    let sA := match d1? with
      | some _ => s
      | none => insertDebtor s ownerDebtor
    let debtorId := match d1? with
      | some d => d.id
      | none => s.nextId
    let d2? := (sA.debtors.filter (fun d =>
        d.property_id == b.unit_id && d.email == email
          && d.owner_id == b.guest_user_id)).head?
    let guestDebtor : Debtor := {
      id := sA.nextId, public_id := freshPublicId "deb" sA.nextId,
      name := fullName, full_name := fullName, email := email,
      phone := phone, property_id := b.unit_id,
      monthly_rent := b.total_amount, debt_amount := 0,
      status := "current", owner_id := b.guest_user_id }
    let sB := match d2? with
      | some _ => sA
      | none => insertDebtor sA guestDebtor
    let userDebtorId := match d2? with
      | some d => d.id
      | none => sA.nextId
    let currencyId := lookupCode sB.currencies "PEN"
    let paidStatusId := lookupCode sB.process_status "PAID"
    let p1 : PaymentRow := {
      id := sB.nextId, public_id := freshPublicId "pay" sB.nextId,
      debtor_id := some debtorId, period := clk.period,
      amount := some b.total_amount, currency_id := currencyId,
      method := "crypto", payment_origin := "NOWPayments",
      status_id := paidStatusId, reference := "nowpayments_" ++ req.payment_id,
      invoice_id := "inv_" ++ req.payment_id, payment_date := some clk.now,
      paid_at := none }
    let sC := insertPayment sB p1
    let det1 : PaymentDetail := {
      id := sC.nextId, public_id := freshPublicId "pdt" sC.nextId,
      payment_id := p1.id, payer_name := fullName, payer_email := email,
      payment_method_code := "crypto", payment_method_name := "NOWPayments",
      transaction_id := req.payment_id, external_reference := req.order_id,
      created_by := some u.owner_id }
    let sD := insertPaymentDetail sC det1
    -- second payment: guarded only by user_debtor_id being set (always, here)
    let p2 : PaymentRow := {
      id := sD.nextId, public_id := freshPublicId "pay" sD.nextId,
      debtor_id := some userDebtorId, period := clk.period,
      amount := some b.total_amount, currency_id := currencyId,
      method := "crypto", payment_origin := "NOWPayments",
      status_id := paidStatusId, reference := "nowpayments_" ++ req.payment_id,
      invoice_id := "inv_" ++ req.payment_id, payment_date := some clk.now,
      paid_at := none }
    let sE := insertPayment sD p2
    let det2 : PaymentDetail := {
      id := sE.nextId, public_id := freshPublicId "pdt" sE.nextId,
      payment_id := p2.id, payer_name := fullName, payer_email := email,
      payment_method_code := "crypto", payment_method_name := "NOWPayments",
      transaction_id := req.payment_id, external_reference := req.order_id,
      created_by := some b.guest_user_id }
    insertPaymentDetail sE det2

/-- The notification block of nowpayments_webhook: re-fetch the booking with
its unit, and for a finished payment insert one notification for the guest,
with a deterministic public id derived from booking and provider payment id. -/
def npCreateNotification (s : DBState) (b : Booking) (bpid : String)
    (req : PaymentWebhookRequest) : DBState :=
  match findUnit s b.unit_id with
  | none => s
  | some u =>
    if req.payment_status == "finished" then
      let n : NotificationRow := {
        id := s.nextId,
        public_id := "not_" ++ bpid ++ "_" ++ req.payment_id,
        user_id := b.guest_user_id,
        title := "Pago completado exitosamente",
        message := "Tu pago para " ++ u.title ++ " ha sido procesado correctamente",
        action_url := "/bookings/" ++ bpid,
        is_read := false,
        type_id := lookupCode s.notification_types "payment_completed" }
      insertNotification s n
    else s

/-- nowpayments_webhook before its outermost exception wrapper.  The demo_
branch returns success without touching the database: its body begins by
importing app.utils.public_id, a module absent from the repository, so the
ImportError is caught by the branch-local handler which still answers success.
Status mapping, booking update, payment-record block and notification block
follow the source order. -/
def npNewPaymentStatus (ps : String) : String :=
  if ps == "finished" then "PAID"
  else if ps == "failed" then "FAILED"
  else if ps == "cancelled" then "CANCELLED"
  else if ps == "confirming" then "CONFIRMING"
  else "PENDING"

def npNewBookingStatus (s : DBState) (ps : String) : Option Nat :=
  if ps == "finished" then lookupCode s.process_status "BOOKING_CONFIRMED"
  else if ps == "failed" || ps == "cancelled" then
    lookupCode s.process_status "BOOKING_CANCELLED"
  else none

def nowpaymentsInner (s : DBState) (req : PaymentWebhookRequest)
    (clk : Clock) : DBState × NPResponse :=
  if strStartsWith req.order_id "demo_" then (s, .demoSuccess)
  else
    match extractBookingPublicIdNP s req.order_id with
    | none => (s, .httpError 400 "Formato de order_id invalido")
    | some bpid =>
      match findBooking s bpid with
      | none => (s, .httpError 404 "Reserva no encontrada")
      | some b =>
        let s1 := applyBookingUpdate s b.id
          (some (npNewPaymentStatus req.payment_status))
          (npNewBookingStatus s req.payment_status)
        let s2 := if req.payment_status == "finished" then
            npCreatePaymentRecords s1 b req clk
          else s1
        let s3 := npCreateNotification s2 b bpid req
        (s3, .success bpid (npNewPaymentStatus req.payment_status))

/-- nowpayments_webhook: the route body runs inside try/except Exception,
which also catches the 400/404 HTTPExceptions raised inside and re-raises
them as a 500. -/
def nowpayments_webhook (s : DBState) (req : PaymentWebhookRequest)
    (clk : Clock) : DBState × NPResponse :=
  match nowpaymentsInner s req clk with
  | (s', .httpError _ _) => (s', .httpError 500 "Error procesando webhook")
  | r => r

/-! ## app/routers/webhooks.py - iZiPay route -/

/-- Body of the iZiPay webhook: a plain dict read with .get, so every field is
optional. -/
structure IzipayRequest where
  order_id : Option String
  payment_id : Option String
  payment_status : Option String
  amount : Option ℚ
  currency : Option String
deriving Repr, DecidableEq

inductive IZResponse
  | success (booking_public_id : String) (new_payment_status : Option String)
  | httpError (code : Nat) (detail : String)
deriving Repr, DecidableEq

/-- Python truthiness of an optional string: None and the empty string are
falsy. -/
def optTruthy : Option String → Bool
  | none => false
  | some t => !(t == "")

/-- Python f-string rendering of an optional value, as used in
izipay_webhook's reference fields. -/
def reprOpt (o : Option String) : String :=
  match o with
  | none => "None"
  | some t => t

/-- order_id parsing in izipay_webhook: ALQ- takes the middle part with no
further shape check, bkg_ is used directly, and any other non-empty order_id
is used as the booking public id itself. -/
def extractBookingPublicIdIZ (order_id : String) : Option String :=
  if strStartsWith order_id "ALQ-" then
    let parts := splitChar '-' order_id.data
    if 2 ≤ parts.length then
      let p1 : String := ⟨parts.getD 1 []⟩
      if p1 == "" then none else some p1
    else none
  else if strStartsWith order_id "bkg_" then some order_id
  else if order_id == "" then none
  else some order_id

/-- The payment-record block of izipay_webhook: like the NOWPayments one but
with card metadata, the webhook amount instead of the booking total, and the
second payment guarded by the payer debtor differing from the owner debtor. -/
def izCreatePaymentRecords (s : DBState) (b : Booking)
    (req : IzipayRequest) (clk : Clock) : DBState :=
  match findUnit s b.unit_id with
  | none => s
  | some u =>
    let userOpt := findUser s b.guest_user_id
    let email := (userOpt.map (fun w => w.email)).getD ""
    let fullName := (userOpt.map (fun w => w.full_name)).getD "Unknown"
    let phone := userOpt.bind (fun w => w.phone)
    let d1? := (s.debtors.filter (fun d =>
        d.property_id == b.unit_id && d.email == email)).head?
    let ownerDebtor : Debtor := {
      id := s.nextId, public_id := freshPublicId "deb" s.nextId,
      name := fullName, full_name := fullName, email := email,
      phone := phone, property_id := b.unit_id,
      monthly_rent := b.total_amount, debt_amount := 0,
      status := "current", owner_id := u.owner_id }
    let sA := match d1? with
      | some _ => s
      | none => insertDebtor s ownerDebtor
    let debtorId := match d1? with
      | some d => d.id
      | none => s.nextId
    let d2? := (sA.debtors.filter (fun d =>
        d.property_id == b.unit_id && d.email == email
          && d.owner_id == b.guest_user_id)).head?
    let guestDebtor : Debtor := {
      id := sA.nextId, public_id := freshPublicId "deb" sA.nextId,
      name := fullName, full_name := fullName, email := email,
      phone := phone, property_id := b.unit_id,
      monthly_rent := b.total_amount, debt_amount := 0,
      status := "current", owner_id := b.guest_user_id }
    let sB := match d2? with
      | some _ => sA
      | none => insertDebtor sA guestDebtor
    let userDebtorId := match d2? with
      | some d => d.id
      | none => sA.nextId
    let currencyId := lookupCode sB.currencies "PEN"
    let paidStatusId := lookupCode sB.process_status "PAID"
    let p1 : PaymentRow := {
      id := sB.nextId, public_id := freshPublicId "pay" sB.nextId,
      debtor_id := some debtorId, period := clk.period,
      amount := req.amount, currency_id := currencyId,
      method := "card", payment_origin := "iZIPay",
      status_id := paidStatusId,
      reference := "izipay_" ++ reprOpt req.payment_id,
      invoice_id := "inv_" ++ reprOpt req.payment_id,
      payment_date := some clk.now, paid_at := none }
    let sC := insertPayment sB p1
    let det1 : PaymentDetail := {
      id := sC.nextId, public_id := freshPublicId "pdt" sC.nextId,
      payment_id := p1.id, payer_name := fullName, payer_email := email,
      payment_method_code := "card", payment_method_name := "iZIPay",
      transaction_id := reprOpt req.payment_id,
      external_reference := req.order_id.getD "",
      created_by := some u.owner_id }
    let sD := insertPaymentDetail sC det1
    if userDebtorId != debtorId then
      let p2 : PaymentRow := {
        id := sD.nextId, public_id := freshPublicId "pay" sD.nextId,
        debtor_id := some userDebtorId, period := clk.period,
        amount := req.amount, currency_id := currencyId,
        method := "card", payment_origin := "iZIPay",
        status_id := paidStatusId,
        reference := "izipay_" ++ reprOpt req.payment_id,
        invoice_id := "inv_" ++ reprOpt req.payment_id,
        payment_date := some clk.now, paid_at := none }
      let sE := insertPayment sD p2
      let det2 : PaymentDetail := {
        id := sE.nextId, public_id := freshPublicId "pdt" sE.nextId,
        payment_id := p2.id, payer_name := fullName, payer_email := email,
        payment_method_code := "card", payment_method_name := "iZIPay",
        transaction_id := reprOpt req.payment_id,
        external_reference := req.order_id.getD "",
        created_by := some b.guest_user_id }
      insertPaymentDetail sE det2
    else sD

def izNewPaymentStatus (ps : String) : Option String :=
  if ps == "finished" then some "PAID"
  else if ps == "failed" then some "FAILED"
  else if ps == "cancelled" then some "CANCELLED"
  else none

def izNewBookingStatus (s : DBState) (ps : String) : Option Nat :=
  if ps == "finished" then lookupCode s.process_status "BOOKING_CONFIRMED"
  else if ps == "failed" || ps == "cancelled" then
    lookupCode s.process_status "BOOKING_CANCELLED"
  else none

/-- izipay_webhook: validate required fields, resolve the booking, map the
three recognised statuses (any other status maps payment_status to null),
update the booking, run the payment block only for finished, and always
answer success when no HTTPException was raised.  This route re-raises
HTTPExceptions unchanged, so the 400/404 reach the client. -/
def izipay_webhook (s : DBState) (req : IzipayRequest)
    (clk : Clock) : DBState × IZResponse :=
  if !(optTruthy req.order_id) || !(optTruthy req.payment_status) then
    (s, .httpError 400 "order_id y payment_status son requeridos")
  else
    let order_id := req.order_id.getD ""
    let ps := req.payment_status.getD ""
    match extractBookingPublicIdIZ order_id with
    | none => (s, .httpError 400 "Formato de order_id desconocido")
    | some bpid =>
      match findBooking s bpid with
      | none => (s, .httpError 404 "Reserva no encontrada")
      | some b =>
        let s1 := applyBookingUpdate s b.id (izNewPaymentStatus ps)
          (izNewBookingStatus s ps)
        let s2 := if ps == "finished" then izCreatePaymentRecords s1 b req clk
          else s1
        (s2, .success bpid (izNewPaymentStatus ps))

/-! ## app/services/payment_service.py -/

/-- Result dict of a provider process_webhook call. -/
inductive PWResult
  | ignored (reason : String)
  | processed (detail : Option String)
deriving Repr, DecidableEq

/-- invoices update on the finished branch: status PAID, paid_at stamped,
metadata replaced by the payload. -/
def updateInvoicePaid (s : DBState) (invId : Nat) (now : String)
    (p : ProviderPayload) : DBState :=
  { s with invoices := s.invoices.map (fun i =>
      if i.id == invId then
        { i with status := "PAID", paid_at := some now, metadata := some p }
      else i) }

/-- invoices update on the failed/expired branch: status and metadata only. -/
def updateInvoiceStatusMeta (s : DBState) (invId : Nat) (st : String)
    (p : ProviderPayload) : DBState :=
  { s with invoices := s.invoices.map (fun i =>
      if i.id == invId then { i with status := st, metadata := some p }
      else i) }

/-- payments update on the finished branch: paid_at stamped and status_id set
from the PAID process_status subquery (null when the code is absent). -/
def updatePaymentPaid (s : DBState) (payId : Nat) (now : String) : DBState :=
  { s with payments := s.payments.map (fun r =>
      if r.id == payId then
        { r with paid_at := some now,
                 status_id := lookupCode s.process_status "PAID" }
      else r) }

/-- NOWPaymentsProvider.process_webhook: resolve the invoice by order_id,
then update invoice and payment for finished, invoice only for failed or
expired, and report PENDING with no mutation for any other status.  The
current invoice status is never consulted and no amount is compared. -/
def NOWPaymentsProvider.process_webhook (s : DBState) (p : ProviderPayload)
    (now : String) : DBState × PWResult :=
  match p.order_id with
  | none => (s, .ignored "No order ID")
  | some oid =>
    match findInvoice s oid with
    | none => (s, .ignored "Invoice not found")
    | some inv =>
      if p.payment_status == some "finished" then
        let s1 := updateInvoicePaid s inv.id now p
        let s2 := updatePaymentPaid s1 inv.payment_id now
        (s2, .processed (some "PAID"))
      else if p.payment_status == some "failed" then
        (updateInvoiceStatusMeta s inv.id "FAILED" p, .processed (some "FAILED"))
      else if p.payment_status == some "expired" then
        (updateInvoiceStatusMeta s inv.id "EXPIRED" p, .processed (some "EXPIRED"))
      else (s, .processed (some "PENDING"))

/-- PaymentService.process_webhook: string dispatch over the provider name.
The signature argument is accepted and passed through but never verified by
any provider (BasePaymentProvider.verify_signature is never called).  An
unknown provider raises ValueError, modelled as Except.error. -/
def PaymentService.process_webhook (s : DBState) (provider : String)
    (p : ProviderPayload) (sig : Option String) (now : String) :
    Except String (DBState × PWResult) :=
  let _ := sig
  if provider == "mercadopago" then
    match p.data_id with
    | none => .ok (s, .ignored "No payment ID")
    | some pid => .ok (s, .processed (some pid))
  else if provider == "izipay" then .ok (s, .processed none)
  else if provider == "nowpayments" then
    .ok (NOWPaymentsProvider.process_webhook s p now)
  else .error ("Unknown payment provider: " ++ provider)

/-! ## app/routers/invoices.py - handle_webhook -/

/-- The webhook_logs row inserted before any processing. -/
def mkLogRow (s : DBState) (provider : String) (p : ProviderPayload) :
    WebhookLog := {
  id := s.nextId, provider := provider,
  event_type := p.ptype.getD (p.event_type.getD "unknown"),
  processed := false, error_message := none }

def insertWebhookLog (s : DBState) (l : WebhookLog) : DBState :=
  { s with webhook_logs := s.webhook_logs ++ [l], nextId := s.nextId + 1 }

def markLogProcessed (s : DBState) (lid : Nat) : DBState :=
  { s with webhook_logs := s.webhook_logs.map (fun l =>
      if l.id == lid then { l with processed := true } else l) }

def setLogError (s : DBState) (lid : Nat) (msg : String) : DBState :=
  { s with webhook_logs := s.webhook_logs.map (fun l =>
      if l.id == lid then { l with error_message := some msg } else l) }

inductive HWResponse
  | ok
  | errorResp (message : String)
deriving Repr, DecidableEq

/-- handle_webhook: insert a webhook_logs row with processed false, dispatch
to the provider, then mark the row processed true and answer ok with
processed true; on an exception, record the error message on the row and
answer an error body (still HTTP 200). -/
def handle_webhook (s : DBState) (provider : String) (p : ProviderPayload)
    (sig : Option String) (now : String) : DBState × HWResponse :=
  let logId := s.nextId
  let s1 := insertWebhookLog s (mkLogRow s provider p)
  match PaymentService.process_webhook s1 provider p sig now with
  | .ok (s2, _res) => (markLogProcessed s2 logId, .ok)
  | .error msg => (setLogError s1 logId msg, .errorResp msg)

/-! ## app/routers/payments.py - create_payment -/

inductive CPResult
  | ok (paymentId : Nat)
  | httpError (code : Nat) (detail : String)
deriving Repr, DecidableEq

/-- create_payment: resolve the property and the user by public id, enforce
ownership unless admin, find-or-create a debtor for the user-property pair
(the created row stores the user public id in owner_id and zero balances),
insert the payment row as PENDING with its details, then run the
create-or-update block on the debtor matching (property, email, current
user): that block reduces debt_amount by the amount floored at zero and
recomputes status.  property_data was selected without monthly_rent, so its
.get default of 0 is what the block sees. -/
def create_payment (s : DBState) (property_id user_id : String) (amount : ℚ)
    (payment_method payment_origin : String) (invoice_id : Option String)
    (ownerId : String) (isAdmin : Bool) (clk : Clock) : DBState × CPResult :=
  match (s.units.filter (fun u => u.public_id == property_id)).head? with
  | none => (s, .httpError 404 "Property not found")
  | some prop =>
    if !isAdmin && !(prop.owner_id == ownerId) then
      (s, .httpError 403 "Access denied to this property")
    else
      match (s.users.filter (fun u => u.public_id == user_id)).head? with
      | none => (s, .httpError 404 "User not found")
      | some usr =>
        let currencyId := lookupCode s.currencies "PEN"
        let statusId := lookupCode s.process_status "PENDING"
        let d0? := (s.debtors.filter (fun d =>
            d.property_id == prop.id && d.email == usr.email)).head?
        let newDebtor : Debtor := {
          id := s.nextId, public_id := freshPublicId "deb" s.nextId,
          name := usr.full_name, full_name := usr.full_name,
          email := usr.email, phone := usr.phone, property_id := prop.id,
          monthly_rent := 0, debt_amount := 0, status := "current",
          owner_id := user_id }
        let sA := match d0? with
          | some _ => s
          | none => insertDebtor s newDebtor
        let debtorId := match d0? with
          | some d => d.id
          | none => s.nextId
        let pay : PaymentRow := {
          id := sA.nextId, public_id := freshPublicId "pay" sA.nextId,
          debtor_id := some debtorId, period := clk.period,
          amount := some amount, currency_id := currencyId,
          method := payment_method, payment_origin := payment_origin,
          status_id := statusId,
          reference := invoice_id.getD ("inv_" ++ freshPublicId "inv" sA.nextId),
          invoice_id := invoice_id.getD ("inv_" ++ freshPublicId "inv" sA.nextId),
          payment_date := some clk.now, paid_at := none }
        let sB := insertPayment sA pay
        let det : PaymentDetail := {
          id := sB.nextId, public_id := freshPublicId "pdt" sB.nextId,
          payment_id := pay.id, payer_name := usr.full_name,
          payer_email := usr.email, payment_method_code := payment_method,
          payment_method_name := payment_origin, transaction_id := "",
          external_reference := "", created_by := some ownerId }
        let sC := insertPaymentDetail sB det
        -- property_data carries no monthly_rent key: .get defaults to 0
        let propMonthlyRent : ℚ := 0
        let dEx? := (sC.debtors.filter (fun d =>
            d.property_id == prop.id && d.email == usr.email
              && d.owner_id == ownerId)).head?
        let sD := match dEx? with
          | some d =>
            { sC with debtors := sC.debtors.map (fun x =>
                if x.id == d.id then
                  { x with
                    monthly_rent := propMonthlyRent
                    debt_amount := max 0 (d.debt_amount - amount)
                    status := if d.debt_amount - amount ≤ 0 then "current"
                      else "overdue"
                    name := usr.full_name }
                else x) }
          | none =>
            insertDebtor sC {
              id := sC.nextId, public_id := freshPublicId "deb" sC.nextId,
              name := usr.full_name, full_name := usr.full_name,
              email := usr.email, phone := usr.phone, property_id := prop.id,
              monthly_rent := propMonthlyRent,
              debt_amount := max 0 (propMonthlyRent - amount),
              status := if propMonthlyRent ≤ amount then "current"
                else "overdue",
              owner_id := ownerId }
        (sD, .ok pay.id)

/-! ## Expected-row abbreviations and fixture states -/

def npPaidRow (s : DBState) (did rowId : Nat) (b : Booking)
    (req : PaymentWebhookRequest) (clk : Clock) : PaymentRow := {
  id := rowId, public_id := freshPublicId "pay" rowId,
  debtor_id := some did, period := clk.period, amount := some b.total_amount,
  currency_id := lookupCode s.currencies "PEN",
  method := "crypto", payment_origin := "NOWPayments",
  status_id := lookupCode s.process_status "PAID",
  reference := "nowpayments_" ++ req.payment_id,
  invoice_id := "inv_" ++ req.payment_id,
  payment_date := some clk.now, paid_at := none }

def npPaidDetail (rowId payId : Nat) (w : UserRow)
    (req : PaymentWebhookRequest) (creator : String) : PaymentDetail := {
  id := rowId, public_id := freshPublicId "pdt" rowId, payment_id := payId,
  payer_name := w.full_name, payer_email := w.email,
  payment_method_code := "crypto", payment_method_name := "NOWPayments",
  transaction_id := req.payment_id, external_reference := req.order_id,
  created_by := some creator }

def npNotif (s : DBState) (rowId : Nat) (b : Booking) (bpid : String)
    (u : UnitRow) (req : PaymentWebhookRequest) : NotificationRow := {
  id := rowId, public_id := "not_" ++ bpid ++ "_" ++ req.payment_id,
  user_id := b.guest_user_id, title := "Pago completado exitosamente",
  message := "Tu pago para " ++ u.title ++ " ha sido procesado correctamente",
  action_url := "/bookings/" ++ bpid, is_read := false,
  type_id := lookupCode s.notification_types "payment_completed" }

def izPaidRow (s : DBState) (did rowId : Nat) (req : IzipayRequest)
    (clk : Clock) : PaymentRow := {
  id := rowId, public_id := freshPublicId "pay" rowId,
  debtor_id := some did, period := clk.period, amount := req.amount,
  currency_id := lookupCode s.currencies "PEN",
  method := "card", payment_origin := "iZIPay",
  status_id := lookupCode s.process_status "PAID",
  reference := "izipay_" ++ reprOpt req.payment_id,
  invoice_id := "inv_" ++ reprOpt req.payment_id,
  payment_date := some clk.now, paid_at := none }

def izPaidDetail (rowId payId : Nat) (w : UserRow) (req : IzipayRequest)
    (creator : String) : PaymentDetail := {
  id := rowId, public_id := freshPublicId "pdt" rowId, payment_id := payId,
  payer_name := w.full_name, payer_email := w.email,
  payment_method_code := "card", payment_method_name := "iZIPay",
  transaction_id := reprOpt req.payment_id,
  external_reference := req.order_id.getD "",
  created_by := some creator }

/-! ## Fixture states

A parametric family of small database states used to settle the claims: one
booking bkg_1 on unit unt_2 owned by owner-uuid, booked and paid by
guest-uuid, with the catalog tables populated.  Fields the handlers only
copy (prior payment_status, prior status_id, debt figures, the booking
total) stay parameters, so theorems over the family quantify over them. -/

def npCatalog : List CatalogRow :=
  [⟨1, "PENDING"⟩, ⟨2, "PAID"⟩, ⟨3, "BOOKING_CONFIRMED"⟩,
   ⟨4, "BOOKING_CANCELLED"⟩]

def mkState (debtors : List Debtor) (pps : Option String) (sid : Option Nat)
    (amt : ℚ) : DBState := {
  bookings := [⟨1, "bkg_1", sid, pps, "guest-uuid", 2, amt⟩]
  units := [⟨2, "unt_2", "Casa Azul", "owner-uuid"⟩]
  users := [⟨"guest-uuid", "usr_g", "Guest User", "guest@example.com", none⟩]
  debtors := debtors
  payments := []
  payment_details := []
  notifications := []
  invoices := []
  webhook_logs := []
  process_status := npCatalog
  payment_status_table := [⟨5, "PAID"⟩]
  currencies := [⟨6, "PEN"⟩]
  notification_types := [⟨7, "payment_completed"⟩]
  nextId := 100 }

/-- A debtor for (unt_2, guest email) owned by the property owner, with a
parametric running debt. -/
def ownerSideDebtor (debt : ℚ) : Debtor :=
  ⟨50, "deb_50", "Guest User", "Guest User", "guest@example.com", none, 2,
   0, debt, "overdue", "owner-uuid"⟩

/-- A debtor for (unt_2, guest email) owned by the paying guest. -/
def payerSideDebtor (debt : ℚ) : Debtor :=
  ⟨51, "deb_51", "Guest User", "Guest User", "guest@example.com", none, 2,
   0, debt, "overdue", "guest-uuid"⟩

def mkNPReq (ps : String) (amt : ℚ) : PaymentWebhookRequest :=
  ⟨"bkg_1", "np123", ps, amt, "PEN", none, none, none⟩

def clk0 : Clock := ⟨"T0", "2025-01"⟩


/-- A state holding one invoice inv_A with parametric status and amount,
linked to payment row 40. -/
def invState (sigma : String) (amt : ℚ) : DBState := {
  bookings := []
  units := []
  users := []
  debtors := []
  payments := [⟨40, "pay_40", some 50, "2025-01", some amt, some 6, "crypto",
    "nowpayments", some 1, "ref_40", "inv_40", none, none⟩]
  payment_details := []
  notifications := []
  invoices := [⟨41, "inv_A", 40, amt, sigma, none, none⟩]
  webhook_logs := []
  process_status := npCatalog
  payment_status_table := [⟨5, "PAID"⟩]
  currencies := [⟨6, "PEN"⟩]
  notification_types := [⟨7, "payment_completed"⟩]
  nextId := 100 }

def mkPayload (ps : Option String) (oid : Option String) (paid : Option ℚ) :
    ProviderPayload :=
  ⟨ps, oid, paid, none, none, none⟩

/-- Status of the invoice resolved by a public id. -/
def invoiceStatus (s : DBState) (pid : String) : Option String :=
  (findInvoice s pid).map (fun i => i.status)


/-! ## Field-preservation lemmas for the table helpers -/

@[simp] theorem applyBookingUpdate_units (s : DBState) (bid : Nat) (ps : Option String) (st : Option Nat) :
    (applyBookingUpdate s bid ps st).units = s.units := rfl

@[simp] theorem applyBookingUpdate_users (s : DBState) (bid : Nat) (ps : Option String) (st : Option Nat) :
    (applyBookingUpdate s bid ps st).users = s.users := rfl

@[simp] theorem applyBookingUpdate_debtors (s : DBState) (bid : Nat) (ps : Option String) (st : Option Nat) :
    (applyBookingUpdate s bid ps st).debtors = s.debtors := rfl

@[simp] theorem applyBookingUpdate_payments (s : DBState) (bid : Nat) (ps : Option String) (st : Option Nat) :
    (applyBookingUpdate s bid ps st).payments = s.payments := rfl

@[simp] theorem applyBookingUpdate_payment_details (s : DBState) (bid : Nat) (ps : Option String) (st : Option Nat) :
    (applyBookingUpdate s bid ps st).payment_details = s.payment_details := rfl

@[simp] theorem applyBookingUpdate_notifications (s : DBState) (bid : Nat) (ps : Option String) (st : Option Nat) :
    (applyBookingUpdate s bid ps st).notifications = s.notifications := rfl

@[simp] theorem applyBookingUpdate_invoices (s : DBState) (bid : Nat) (ps : Option String) (st : Option Nat) :
    (applyBookingUpdate s bid ps st).invoices = s.invoices := rfl

@[simp] theorem applyBookingUpdate_webhook_logs (s : DBState) (bid : Nat) (ps : Option String) (st : Option Nat) :
    (applyBookingUpdate s bid ps st).webhook_logs = s.webhook_logs := rfl

@[simp] theorem applyBookingUpdate_process_status (s : DBState) (bid : Nat) (ps : Option String) (st : Option Nat) :
    (applyBookingUpdate s bid ps st).process_status = s.process_status := rfl

@[simp] theorem applyBookingUpdate_payment_status_table (s : DBState) (bid : Nat) (ps : Option String) (st : Option Nat) :
    (applyBookingUpdate s bid ps st).payment_status_table = s.payment_status_table := rfl

@[simp] theorem applyBookingUpdate_currencies (s : DBState) (bid : Nat) (ps : Option String) (st : Option Nat) :
    (applyBookingUpdate s bid ps st).currencies = s.currencies := rfl

@[simp] theorem applyBookingUpdate_notification_types (s : DBState) (bid : Nat) (ps : Option String) (st : Option Nat) :
    (applyBookingUpdate s bid ps st).notification_types = s.notification_types := rfl

@[simp] theorem applyBookingUpdate_nextId (s : DBState) (bid : Nat) (ps : Option String) (st : Option Nat) :
    (applyBookingUpdate s bid ps st).nextId = s.nextId := rfl

@[simp] theorem insertDebtor_bookings (s : DBState) (d : Debtor) :
    (insertDebtor s d).bookings = s.bookings := rfl

@[simp] theorem insertDebtor_units (s : DBState) (d : Debtor) :
    (insertDebtor s d).units = s.units := rfl

@[simp] theorem insertDebtor_users (s : DBState) (d : Debtor) :
    (insertDebtor s d).users = s.users := rfl

@[simp] theorem insertDebtor_payments (s : DBState) (d : Debtor) :
    (insertDebtor s d).payments = s.payments := rfl

@[simp] theorem insertDebtor_payment_details (s : DBState) (d : Debtor) :
    (insertDebtor s d).payment_details = s.payment_details := rfl

@[simp] theorem insertDebtor_notifications (s : DBState) (d : Debtor) :
    (insertDebtor s d).notifications = s.notifications := rfl

@[simp] theorem insertDebtor_invoices (s : DBState) (d : Debtor) :
    (insertDebtor s d).invoices = s.invoices := rfl

@[simp] theorem insertDebtor_webhook_logs (s : DBState) (d : Debtor) :
    (insertDebtor s d).webhook_logs = s.webhook_logs := rfl

@[simp] theorem insertDebtor_process_status (s : DBState) (d : Debtor) :
    (insertDebtor s d).process_status = s.process_status := rfl

@[simp] theorem insertDebtor_payment_status_table (s : DBState) (d : Debtor) :
    (insertDebtor s d).payment_status_table = s.payment_status_table := rfl

@[simp] theorem insertDebtor_currencies (s : DBState) (d : Debtor) :
    (insertDebtor s d).currencies = s.currencies := rfl

@[simp] theorem insertDebtor_notification_types (s : DBState) (d : Debtor) :
    (insertDebtor s d).notification_types = s.notification_types := rfl

@[simp] theorem insertPayment_bookings (s : DBState) (p : PaymentRow) :
    (insertPayment s p).bookings = s.bookings := rfl

@[simp] theorem insertPayment_units (s : DBState) (p : PaymentRow) :
    (insertPayment s p).units = s.units := rfl

@[simp] theorem insertPayment_users (s : DBState) (p : PaymentRow) :
    (insertPayment s p).users = s.users := rfl

@[simp] theorem insertPayment_debtors (s : DBState) (p : PaymentRow) :
    (insertPayment s p).debtors = s.debtors := rfl

@[simp] theorem insertPayment_payment_details (s : DBState) (p : PaymentRow) :
    (insertPayment s p).payment_details = s.payment_details := rfl

@[simp] theorem insertPayment_notifications (s : DBState) (p : PaymentRow) :
    (insertPayment s p).notifications = s.notifications := rfl

@[simp] theorem insertPayment_invoices (s : DBState) (p : PaymentRow) :
    (insertPayment s p).invoices = s.invoices := rfl

@[simp] theorem insertPayment_webhook_logs (s : DBState) (p : PaymentRow) :
    (insertPayment s p).webhook_logs = s.webhook_logs := rfl

@[simp] theorem insertPayment_process_status (s : DBState) (p : PaymentRow) :
    (insertPayment s p).process_status = s.process_status := rfl

@[simp] theorem insertPayment_payment_status_table (s : DBState) (p : PaymentRow) :
    (insertPayment s p).payment_status_table = s.payment_status_table := rfl

@[simp] theorem insertPayment_currencies (s : DBState) (p : PaymentRow) :
    (insertPayment s p).currencies = s.currencies := rfl

@[simp] theorem insertPayment_notification_types (s : DBState) (p : PaymentRow) :
    (insertPayment s p).notification_types = s.notification_types := rfl

@[simp] theorem insertPaymentDetail_bookings (s : DBState) (d : PaymentDetail) :
    (insertPaymentDetail s d).bookings = s.bookings := rfl

@[simp] theorem insertPaymentDetail_units (s : DBState) (d : PaymentDetail) :
    (insertPaymentDetail s d).units = s.units := rfl

@[simp] theorem insertPaymentDetail_users (s : DBState) (d : PaymentDetail) :
    (insertPaymentDetail s d).users = s.users := rfl

@[simp] theorem insertPaymentDetail_debtors (s : DBState) (d : PaymentDetail) :
    (insertPaymentDetail s d).debtors = s.debtors := rfl

@[simp] theorem insertPaymentDetail_payments (s : DBState) (d : PaymentDetail) :
    (insertPaymentDetail s d).payments = s.payments := rfl

@[simp] theorem insertPaymentDetail_notifications (s : DBState) (d : PaymentDetail) :
    (insertPaymentDetail s d).notifications = s.notifications := rfl

@[simp] theorem insertPaymentDetail_invoices (s : DBState) (d : PaymentDetail) :
    (insertPaymentDetail s d).invoices = s.invoices := rfl

@[simp] theorem insertPaymentDetail_webhook_logs (s : DBState) (d : PaymentDetail) :
    (insertPaymentDetail s d).webhook_logs = s.webhook_logs := rfl

@[simp] theorem insertPaymentDetail_process_status (s : DBState) (d : PaymentDetail) :
    (insertPaymentDetail s d).process_status = s.process_status := rfl

@[simp] theorem insertPaymentDetail_payment_status_table (s : DBState) (d : PaymentDetail) :
    (insertPaymentDetail s d).payment_status_table = s.payment_status_table := rfl

@[simp] theorem insertPaymentDetail_currencies (s : DBState) (d : PaymentDetail) :
    (insertPaymentDetail s d).currencies = s.currencies := rfl

@[simp] theorem insertPaymentDetail_notification_types (s : DBState) (d : PaymentDetail) :
    (insertPaymentDetail s d).notification_types = s.notification_types := rfl

@[simp] theorem insertNotification_bookings (s : DBState) (n : NotificationRow) :
    (insertNotification s n).bookings = s.bookings := rfl

@[simp] theorem insertNotification_units (s : DBState) (n : NotificationRow) :
    (insertNotification s n).units = s.units := rfl

@[simp] theorem insertNotification_users (s : DBState) (n : NotificationRow) :
    (insertNotification s n).users = s.users := rfl

@[simp] theorem insertNotification_debtors (s : DBState) (n : NotificationRow) :
    (insertNotification s n).debtors = s.debtors := rfl

@[simp] theorem insertNotification_payments (s : DBState) (n : NotificationRow) :
    (insertNotification s n).payments = s.payments := rfl

@[simp] theorem insertNotification_payment_details (s : DBState) (n : NotificationRow) :
    (insertNotification s n).payment_details = s.payment_details := rfl

@[simp] theorem insertNotification_invoices (s : DBState) (n : NotificationRow) :
    (insertNotification s n).invoices = s.invoices := rfl

@[simp] theorem insertNotification_webhook_logs (s : DBState) (n : NotificationRow) :
    (insertNotification s n).webhook_logs = s.webhook_logs := rfl

@[simp] theorem insertNotification_process_status (s : DBState) (n : NotificationRow) :
    (insertNotification s n).process_status = s.process_status := rfl

@[simp] theorem insertNotification_payment_status_table (s : DBState) (n : NotificationRow) :
    (insertNotification s n).payment_status_table = s.payment_status_table := rfl

@[simp] theorem insertNotification_currencies (s : DBState) (n : NotificationRow) :
    (insertNotification s n).currencies = s.currencies := rfl

@[simp] theorem insertNotification_notification_types (s : DBState) (n : NotificationRow) :
    (insertNotification s n).notification_types = s.notification_types := rfl

@[simp] theorem insertDebtor_debtors (s : DBState) (d : Debtor) :
    (insertDebtor s d).debtors = s.debtors ++ [d] := rfl

@[simp] theorem insertDebtor_nextId (s : DBState) (d : Debtor) :
    (insertDebtor s d).nextId = s.nextId + 1 := rfl

@[simp] theorem insertPayment_payments (s : DBState) (p : PaymentRow) :
    (insertPayment s p).payments = s.payments ++ [p] := rfl

@[simp] theorem insertPayment_nextId (s : DBState) (p : PaymentRow) :
    (insertPayment s p).nextId = s.nextId + 1 := rfl

@[simp] theorem insertPaymentDetail_payment_details (s : DBState) (d : PaymentDetail) :
    (insertPaymentDetail s d).payment_details = s.payment_details ++ [d] := rfl

@[simp] theorem insertPaymentDetail_nextId (s : DBState) (d : PaymentDetail) :
    (insertPaymentDetail s d).nextId = s.nextId + 1 := rfl

@[simp] theorem insertNotification_notifications (s : DBState) (n : NotificationRow) :
    (insertNotification s n).notifications = s.notifications ++ [n] := rfl

@[simp] theorem insertNotification_nextId (s : DBState) (n : NotificationRow) :
    (insertNotification s n).nextId = s.nextId + 1 := rfl

@[simp] theorem applyBookingUpdate_bookings (s : DBState) (bid : Nat)
    (ps : Option String) (st : Option Nat) :
    (applyBookingUpdate s bid ps st).bookings =
      s.bookings.map (bookingUpdateFn bid ps st) := rfl

@[simp] theorem findUnit_applyBookingUpdate (s : DBState) (bid : Nat)
    (ps : Option String) (st : Option Nat) (uid : Nat) :
    findUnit (applyBookingUpdate s bid ps st) uid = findUnit s uid := rfl

@[simp] theorem findUser_applyBookingUpdate (s : DBState) (bid : Nat)
    (ps : Option String) (st : Option Nat) (uid : String) :
    findUser (applyBookingUpdate s bid ps st) uid = findUser s uid := rfl


/-! ## Finder-preservation lemmas for the insert helpers -/

@[simp] theorem findUnit_insertDebtor (s : DBState) (d : Debtor) (uid : Nat) :
    findUnit (insertDebtor s d) uid = findUnit s uid := rfl

@[simp] theorem findUser_insertDebtor (s : DBState) (d : Debtor) (uid : String) :
    findUser (insertDebtor s d) uid = findUser s uid := rfl

@[simp] theorem findBooking_insertDebtor (s : DBState) (d : Debtor) (pid : String) :
    findBooking (insertDebtor s d) pid = findBooking s pid := rfl

@[simp] theorem findInvoice_insertDebtor (s : DBState) (d : Debtor) (pid : String) :
    findInvoice (insertDebtor s d) pid = findInvoice s pid := rfl

@[simp] theorem findUnit_insertPayment (s : DBState) (p : PaymentRow) (uid : Nat) :
    findUnit (insertPayment s p) uid = findUnit s uid := rfl

@[simp] theorem findUser_insertPayment (s : DBState) (p : PaymentRow) (uid : String) :
    findUser (insertPayment s p) uid = findUser s uid := rfl

@[simp] theorem findBooking_insertPayment (s : DBState) (p : PaymentRow) (pid : String) :
    findBooking (insertPayment s p) pid = findBooking s pid := rfl

@[simp] theorem findInvoice_insertPayment (s : DBState) (p : PaymentRow) (pid : String) :
    findInvoice (insertPayment s p) pid = findInvoice s pid := rfl

@[simp] theorem findUnit_insertPaymentDetail (s : DBState) (d : PaymentDetail) (uid : Nat) :
    findUnit (insertPaymentDetail s d) uid = findUnit s uid := rfl

@[simp] theorem findUser_insertPaymentDetail (s : DBState) (d : PaymentDetail) (uid : String) :
    findUser (insertPaymentDetail s d) uid = findUser s uid := rfl

@[simp] theorem findBooking_insertPaymentDetail (s : DBState) (d : PaymentDetail) (pid : String) :
    findBooking (insertPaymentDetail s d) pid = findBooking s pid := rfl

@[simp] theorem findInvoice_insertPaymentDetail (s : DBState) (d : PaymentDetail) (pid : String) :
    findInvoice (insertPaymentDetail s d) pid = findInvoice s pid := rfl

@[simp] theorem findUnit_insertNotification (s : DBState) (n : NotificationRow) (uid : Nat) :
    findUnit (insertNotification s n) uid = findUnit s uid := rfl

@[simp] theorem findUser_insertNotification (s : DBState) (n : NotificationRow) (uid : String) :
    findUser (insertNotification s n) uid = findUser s uid := rfl

@[simp] theorem findBooking_insertNotification (s : DBState) (n : NotificationRow) (pid : String) :
    findBooking (insertNotification s n) pid = findBooking s pid := rfl

@[simp] theorem findInvoice_insertNotification (s : DBState) (n : NotificationRow) (pid : String) :
    findInvoice (insertNotification s n) pid = findInvoice s pid := rfl

@[simp] theorem findInvoice_applyBookingUpdate (s : DBState) (bid : Nat)
    (ps : Option String) (st : Option Nat) (pid : String) :
    findInvoice (applyBookingUpdate s bid ps st) pid = findInvoice s pid := rfl


/-! ## Field-preservation lemmas for log and invoice helpers -/

@[simp] theorem insertWebhookLog_bookings (s : DBState) (l : WebhookLog) :
    (insertWebhookLog s l).bookings = s.bookings := rfl

@[simp] theorem insertWebhookLog_units (s : DBState) (l : WebhookLog) :
    (insertWebhookLog s l).units = s.units := rfl

@[simp] theorem insertWebhookLog_users (s : DBState) (l : WebhookLog) :
    (insertWebhookLog s l).users = s.users := rfl

@[simp] theorem insertWebhookLog_debtors (s : DBState) (l : WebhookLog) :
    (insertWebhookLog s l).debtors = s.debtors := rfl

@[simp] theorem insertWebhookLog_payments (s : DBState) (l : WebhookLog) :
    (insertWebhookLog s l).payments = s.payments := rfl

@[simp] theorem insertWebhookLog_payment_details (s : DBState) (l : WebhookLog) :
    (insertWebhookLog s l).payment_details = s.payment_details := rfl

@[simp] theorem insertWebhookLog_notifications (s : DBState) (l : WebhookLog) :
    (insertWebhookLog s l).notifications = s.notifications := rfl

@[simp] theorem insertWebhookLog_invoices (s : DBState) (l : WebhookLog) :
    (insertWebhookLog s l).invoices = s.invoices := rfl

@[simp] theorem insertWebhookLog_process_status (s : DBState) (l : WebhookLog) :
    (insertWebhookLog s l).process_status = s.process_status := rfl

@[simp] theorem insertWebhookLog_payment_status_table (s : DBState) (l : WebhookLog) :
    (insertWebhookLog s l).payment_status_table = s.payment_status_table := rfl

@[simp] theorem insertWebhookLog_currencies (s : DBState) (l : WebhookLog) :
    (insertWebhookLog s l).currencies = s.currencies := rfl

@[simp] theorem insertWebhookLog_notification_types (s : DBState) (l : WebhookLog) :
    (insertWebhookLog s l).notification_types = s.notification_types := rfl

@[simp] theorem markLogProcessed_bookings (s : DBState) (lid : Nat) :
    (markLogProcessed s lid).bookings = s.bookings := rfl

@[simp] theorem markLogProcessed_units (s : DBState) (lid : Nat) :
    (markLogProcessed s lid).units = s.units := rfl

@[simp] theorem markLogProcessed_users (s : DBState) (lid : Nat) :
    (markLogProcessed s lid).users = s.users := rfl

@[simp] theorem markLogProcessed_debtors (s : DBState) (lid : Nat) :
    (markLogProcessed s lid).debtors = s.debtors := rfl

@[simp] theorem markLogProcessed_payments (s : DBState) (lid : Nat) :
    (markLogProcessed s lid).payments = s.payments := rfl

@[simp] theorem markLogProcessed_payment_details (s : DBState) (lid : Nat) :
    (markLogProcessed s lid).payment_details = s.payment_details := rfl

@[simp] theorem markLogProcessed_notifications (s : DBState) (lid : Nat) :
    (markLogProcessed s lid).notifications = s.notifications := rfl

@[simp] theorem markLogProcessed_invoices (s : DBState) (lid : Nat) :
    (markLogProcessed s lid).invoices = s.invoices := rfl

@[simp] theorem markLogProcessed_process_status (s : DBState) (lid : Nat) :
    (markLogProcessed s lid).process_status = s.process_status := rfl

@[simp] theorem markLogProcessed_payment_status_table (s : DBState) (lid : Nat) :
    (markLogProcessed s lid).payment_status_table = s.payment_status_table := rfl

@[simp] theorem markLogProcessed_currencies (s : DBState) (lid : Nat) :
    (markLogProcessed s lid).currencies = s.currencies := rfl

@[simp] theorem markLogProcessed_notification_types (s : DBState) (lid : Nat) :
    (markLogProcessed s lid).notification_types = s.notification_types := rfl

@[simp] theorem markLogProcessed_nextId (s : DBState) (lid : Nat) :
    (markLogProcessed s lid).nextId = s.nextId := rfl

@[simp] theorem setLogError_bookings (s : DBState) (lid : Nat) (msg : String) :
    (setLogError s lid msg).bookings = s.bookings := rfl

@[simp] theorem setLogError_units (s : DBState) (lid : Nat) (msg : String) :
    (setLogError s lid msg).units = s.units := rfl

@[simp] theorem setLogError_users (s : DBState) (lid : Nat) (msg : String) :
    (setLogError s lid msg).users = s.users := rfl

@[simp] theorem setLogError_debtors (s : DBState) (lid : Nat) (msg : String) :
    (setLogError s lid msg).debtors = s.debtors := rfl

@[simp] theorem setLogError_payments (s : DBState) (lid : Nat) (msg : String) :
    (setLogError s lid msg).payments = s.payments := rfl

@[simp] theorem setLogError_payment_details (s : DBState) (lid : Nat) (msg : String) :
    (setLogError s lid msg).payment_details = s.payment_details := rfl

@[simp] theorem setLogError_notifications (s : DBState) (lid : Nat) (msg : String) :
    (setLogError s lid msg).notifications = s.notifications := rfl

@[simp] theorem setLogError_invoices (s : DBState) (lid : Nat) (msg : String) :
    (setLogError s lid msg).invoices = s.invoices := rfl

@[simp] theorem setLogError_process_status (s : DBState) (lid : Nat) (msg : String) :
    (setLogError s lid msg).process_status = s.process_status := rfl

@[simp] theorem setLogError_payment_status_table (s : DBState) (lid : Nat) (msg : String) :
    (setLogError s lid msg).payment_status_table = s.payment_status_table := rfl

@[simp] theorem setLogError_currencies (s : DBState) (lid : Nat) (msg : String) :
    (setLogError s lid msg).currencies = s.currencies := rfl

@[simp] theorem setLogError_notification_types (s : DBState) (lid : Nat) (msg : String) :
    (setLogError s lid msg).notification_types = s.notification_types := rfl

@[simp] theorem setLogError_nextId (s : DBState) (lid : Nat) (msg : String) :
    (setLogError s lid msg).nextId = s.nextId := rfl

@[simp] theorem updateInvoicePaid_bookings (s : DBState) (invId : Nat) (now : String) (p : ProviderPayload) :
    (updateInvoicePaid s invId now p).bookings = s.bookings := rfl

@[simp] theorem updateInvoicePaid_units (s : DBState) (invId : Nat) (now : String) (p : ProviderPayload) :
    (updateInvoicePaid s invId now p).units = s.units := rfl

@[simp] theorem updateInvoicePaid_users (s : DBState) (invId : Nat) (now : String) (p : ProviderPayload) :
    (updateInvoicePaid s invId now p).users = s.users := rfl

@[simp] theorem updateInvoicePaid_debtors (s : DBState) (invId : Nat) (now : String) (p : ProviderPayload) :
    (updateInvoicePaid s invId now p).debtors = s.debtors := rfl

@[simp] theorem updateInvoicePaid_payments (s : DBState) (invId : Nat) (now : String) (p : ProviderPayload) :
    (updateInvoicePaid s invId now p).payments = s.payments := rfl

@[simp] theorem updateInvoicePaid_payment_details (s : DBState) (invId : Nat) (now : String) (p : ProviderPayload) :
    (updateInvoicePaid s invId now p).payment_details = s.payment_details := rfl

@[simp] theorem updateInvoicePaid_notifications (s : DBState) (invId : Nat) (now : String) (p : ProviderPayload) :
    (updateInvoicePaid s invId now p).notifications = s.notifications := rfl

@[simp] theorem updateInvoicePaid_process_status (s : DBState) (invId : Nat) (now : String) (p : ProviderPayload) :
    (updateInvoicePaid s invId now p).process_status = s.process_status := rfl

@[simp] theorem updateInvoicePaid_payment_status_table (s : DBState) (invId : Nat) (now : String) (p : ProviderPayload) :
    (updateInvoicePaid s invId now p).payment_status_table = s.payment_status_table := rfl

@[simp] theorem updateInvoicePaid_currencies (s : DBState) (invId : Nat) (now : String) (p : ProviderPayload) :
    (updateInvoicePaid s invId now p).currencies = s.currencies := rfl

@[simp] theorem updateInvoicePaid_notification_types (s : DBState) (invId : Nat) (now : String) (p : ProviderPayload) :
    (updateInvoicePaid s invId now p).notification_types = s.notification_types := rfl

@[simp] theorem updateInvoicePaid_nextId (s : DBState) (invId : Nat) (now : String) (p : ProviderPayload) :
    (updateInvoicePaid s invId now p).nextId = s.nextId := rfl

@[simp] theorem updateInvoiceStatusMeta_bookings (s : DBState) (invId : Nat) (st : String) (p : ProviderPayload) :
    (updateInvoiceStatusMeta s invId st p).bookings = s.bookings := rfl

@[simp] theorem updateInvoiceStatusMeta_units (s : DBState) (invId : Nat) (st : String) (p : ProviderPayload) :
    (updateInvoiceStatusMeta s invId st p).units = s.units := rfl

@[simp] theorem updateInvoiceStatusMeta_users (s : DBState) (invId : Nat) (st : String) (p : ProviderPayload) :
    (updateInvoiceStatusMeta s invId st p).users = s.users := rfl

@[simp] theorem updateInvoiceStatusMeta_debtors (s : DBState) (invId : Nat) (st : String) (p : ProviderPayload) :
    (updateInvoiceStatusMeta s invId st p).debtors = s.debtors := rfl

@[simp] theorem updateInvoiceStatusMeta_payments (s : DBState) (invId : Nat) (st : String) (p : ProviderPayload) :
    (updateInvoiceStatusMeta s invId st p).payments = s.payments := rfl

@[simp] theorem updateInvoiceStatusMeta_payment_details (s : DBState) (invId : Nat) (st : String) (p : ProviderPayload) :
    (updateInvoiceStatusMeta s invId st p).payment_details = s.payment_details := rfl

@[simp] theorem updateInvoiceStatusMeta_notifications (s : DBState) (invId : Nat) (st : String) (p : ProviderPayload) :
    (updateInvoiceStatusMeta s invId st p).notifications = s.notifications := rfl

@[simp] theorem updateInvoiceStatusMeta_process_status (s : DBState) (invId : Nat) (st : String) (p : ProviderPayload) :
    (updateInvoiceStatusMeta s invId st p).process_status = s.process_status := rfl

@[simp] theorem updateInvoiceStatusMeta_payment_status_table (s : DBState) (invId : Nat) (st : String) (p : ProviderPayload) :
    (updateInvoiceStatusMeta s invId st p).payment_status_table = s.payment_status_table := rfl

@[simp] theorem updateInvoiceStatusMeta_currencies (s : DBState) (invId : Nat) (st : String) (p : ProviderPayload) :
    (updateInvoiceStatusMeta s invId st p).currencies = s.currencies := rfl

@[simp] theorem updateInvoiceStatusMeta_notification_types (s : DBState) (invId : Nat) (st : String) (p : ProviderPayload) :
    (updateInvoiceStatusMeta s invId st p).notification_types = s.notification_types := rfl

@[simp] theorem updateInvoiceStatusMeta_nextId (s : DBState) (invId : Nat) (st : String) (p : ProviderPayload) :
    (updateInvoiceStatusMeta s invId st p).nextId = s.nextId := rfl

@[simp] theorem updatePaymentPaid_bookings (s : DBState) (payId : Nat) (now : String) :
    (updatePaymentPaid s payId now).bookings = s.bookings := rfl

@[simp] theorem updatePaymentPaid_units (s : DBState) (payId : Nat) (now : String) :
    (updatePaymentPaid s payId now).units = s.units := rfl

@[simp] theorem updatePaymentPaid_users (s : DBState) (payId : Nat) (now : String) :
    (updatePaymentPaid s payId now).users = s.users := rfl

@[simp] theorem updatePaymentPaid_debtors (s : DBState) (payId : Nat) (now : String) :
    (updatePaymentPaid s payId now).debtors = s.debtors := rfl

@[simp] theorem updatePaymentPaid_payment_details (s : DBState) (payId : Nat) (now : String) :
    (updatePaymentPaid s payId now).payment_details = s.payment_details := rfl

@[simp] theorem updatePaymentPaid_notifications (s : DBState) (payId : Nat) (now : String) :
    (updatePaymentPaid s payId now).notifications = s.notifications := rfl

@[simp] theorem updatePaymentPaid_invoices (s : DBState) (payId : Nat) (now : String) :
    (updatePaymentPaid s payId now).invoices = s.invoices := rfl

@[simp] theorem updatePaymentPaid_process_status (s : DBState) (payId : Nat) (now : String) :
    (updatePaymentPaid s payId now).process_status = s.process_status := rfl

@[simp] theorem updatePaymentPaid_payment_status_table (s : DBState) (payId : Nat) (now : String) :
    (updatePaymentPaid s payId now).payment_status_table = s.payment_status_table := rfl

@[simp] theorem updatePaymentPaid_currencies (s : DBState) (payId : Nat) (now : String) :
    (updatePaymentPaid s payId now).currencies = s.currencies := rfl

@[simp] theorem updatePaymentPaid_notification_types (s : DBState) (payId : Nat) (now : String) :
    (updatePaymentPaid s payId now).notification_types = s.notification_types := rfl

@[simp] theorem updatePaymentPaid_nextId (s : DBState) (payId : Nat) (now : String) :
    (updatePaymentPaid s payId now).nextId = s.nextId := rfl

@[simp] theorem insertWebhookLog_webhook_logs (s : DBState) (l : WebhookLog) :
    (insertWebhookLog s l).webhook_logs = s.webhook_logs ++ [l] := rfl

@[simp] theorem insertWebhookLog_nextId (s : DBState) (l : WebhookLog) :
    (insertWebhookLog s l).nextId = s.nextId + 1 := rfl

@[simp] theorem findInvoice_insertWebhookLog (s : DBState) (l : WebhookLog)
    (pid : String) :
    findInvoice (insertWebhookLog s l) pid = findInvoice s pid := rfl

@[simp] theorem findInvoice_updatePaymentPaid (s : DBState) (payId : Nat)
    (now : String) (pid : String) :
    findInvoice (updatePaymentPaid s payId now) pid = findInvoice s pid := rfl


/-! ## Behaviour lemmas: one finished NOWPayments delivery

The expected rows inserted by a finished delivery, and the action of one
delivery on an arbitrary state in which the booking, unit, user and the two
debtors all resolve. -/

theorem np_finished_apply (s : DBState) (req : PaymentWebhookRequest)
    (clk : Clock) (bpid : String) (b : Booking) (u : UnitRow) (w : UserRow)
    (d0 d1 : Debtor)
    (hdemo : strStartsWith req.order_id "demo_" = false)
    (hext : extractBookingPublicIdNP s req.order_id = some bpid)
    (hbkg : findBooking s bpid = some b)
    (hps : req.payment_status = "finished")
    (hunit : findUnit s b.unit_id = some u)
    (huser : findUser s b.guest_user_id = some w)
    (hd0 : (s.debtors.filter (fun d =>
        d.property_id == b.unit_id && d.email == w.email)).head? = some d0)
    (hd1 : (s.debtors.filter (fun d =>
        d.property_id == b.unit_id && d.email == w.email
          && d.owner_id == b.guest_user_id)).head? = some d1) :
    (nowpayments_webhook s req clk).2 = .success bpid "PAID" ∧
    (nowpayments_webhook s req clk).1.bookings =
      (applyBookingUpdate s b.id (some "PAID")
        (lookupCode s.process_status "BOOKING_CONFIRMED")).bookings ∧
    (nowpayments_webhook s req clk).1.debtors = s.debtors ∧
    (nowpayments_webhook s req clk).1.payments =
      s.payments ++ [npPaidRow s d0.id s.nextId b req clk,
        npPaidRow s d1.id (s.nextId + 2) b req clk] ∧
    (nowpayments_webhook s req clk).1.payment_details =
      s.payment_details ++ [npPaidDetail (s.nextId + 1) s.nextId w req u.owner_id,
        npPaidDetail (s.nextId + 3) (s.nextId + 2) w req b.guest_user_id] ∧
    (nowpayments_webhook s req clk).1.notifications =
      s.notifications ++ [npNotif s (s.nextId + 4) b bpid u req] ∧
    (nowpayments_webhook s req clk).1.units = s.units ∧
    (nowpayments_webhook s req clk).1.users = s.users ∧
    (nowpayments_webhook s req clk).1.invoices = s.invoices ∧
    (nowpayments_webhook s req clk).1.webhook_logs = s.webhook_logs ∧
    (nowpayments_webhook s req clk).1.process_status = s.process_status ∧
    (nowpayments_webhook s req clk).1.payment_status_table = s.payment_status_table ∧
    (nowpayments_webhook s req clk).1.currencies = s.currencies ∧
    (nowpayments_webhook s req clk).1.notification_types = s.notification_types ∧
    (nowpayments_webhook s req clk).1.nextId = s.nextId + 5 := by
  simp [nowpayments_webhook, nowpaymentsInner, npCreatePaymentRecords,
    npCreateNotification, npNewPaymentStatus, npNewBookingStatus,
    hdemo, hext, hbkg, hps, hunit, huser, hd0, hd1,
    npPaidRow, npPaidDetail, npNotif]


/-! ## Behaviour lemmas: other deliveries, providers, ingestion -/

/-- A non-finished NOWPayments delivery only rewrites the booking row. -/
theorem np_nonfinished_apply (s : DBState) (req : PaymentWebhookRequest)
    (clk : Clock) (bpid : String) (b : Booking)
    (hdemo : strStartsWith req.order_id "demo_" = false)
    (hext : extractBookingPublicIdNP s req.order_id = some bpid)
    (hbkg : findBooking s bpid = some b)
    (hps : (req.payment_status == "finished") = false) :
    nowpayments_webhook s req clk =
      (applyBookingUpdate s b.id
        (some (npNewPaymentStatus req.payment_status))
        (npNewBookingStatus s req.payment_status),
       .success bpid (npNewPaymentStatus req.payment_status)) := by
  simp only [nowpayments_webhook, nowpaymentsInner, hdemo, Bool.false_eq_true,
    if_false, hext, hbkg, hps, npCreateNotification]
  cases hu : findUnit (applyBookingUpdate s b.id
      (some (npNewPaymentStatus req.payment_status))
      (npNewBookingStatus s req.payment_status)) b.unit_id with
  | none => simp [hu]
  | some u => simp [hu, hps]

/-- A row of the updated bookings table carrying the updated id has the new
payment_status, and the new status_id when one was resolved. -/
theorem applyBookingUpdate_row (s : DBState) (bid : Nat) (ps : Option String)
    (st : Option Nat) (row : Booking)
    (hrow : row ∈ (applyBookingUpdate s bid ps st).bookings)
    (hid : row.id = bid) :
    row.payment_status = ps ∧ (∀ v, st = some v → row.status_id = some v) := by
  simp only [applyBookingUpdate_bookings, List.mem_map] at hrow
  obtain ⟨x, _, hfx⟩ := hrow
  simp only [bookingUpdateFn] at hfx
  by_cases h : (x.id == bid) = true
  · rw [if_pos h] at hfx
    subst hfx
    refine ⟨rfl, ?_⟩
    intro v hv
    simp [hv]
  · rw [if_neg h] at hfx
    subst hfx
    exact absurd (by simpa using hid) (by simpa using h)

/-- An iZiPay delivery whose status is none of finished, failed, cancelled
still updates the booking, writing payment_status null, and answers success. -/
theorem iz_other_apply (s : DBState) (req : IzipayRequest) (clk : Clock)
    (oid ps bpid : String) (b : Booking)
    (horder : req.order_id = some oid)
    (hstat : req.payment_status = some ps)
    (h0 : (oid == "") = false)
    (h1 : (ps == "") = false)
    (hext : extractBookingPublicIdIZ oid = some bpid)
    (hbkg : findBooking s bpid = some b)
    (hf : (ps == "finished") = false)
    (hfl : (ps == "failed") = false)
    (hc : (ps == "cancelled") = false) :
    izipay_webhook s req clk =
      (applyBookingUpdate s b.id none none, .success bpid none) := by
  simp [izipay_webhook, optTruthy, horder, hstat, h0, h1, hext, hbkg,
    hf, hfl, hc, izNewPaymentStatus, izNewBookingStatus]

/-- A finished iZiPay delivery with both debtors resolving to distinct rows:
booking updated, two payments and two details inserted, no notification. -/
theorem iz_finished_apply (s : DBState) (req : IzipayRequest) (clk : Clock)
    (oid bpid : String) (b : Booking) (u : UnitRow) (w : UserRow)
    (d0 d1 : Debtor)
    (horder : req.order_id = some oid)
    (hstat : req.payment_status = some "finished")
    (h0 : (oid == "") = false)
    (hext : extractBookingPublicIdIZ oid = some bpid)
    (hbkg : findBooking s bpid = some b)
    (hunit : findUnit s b.unit_id = some u)
    (huser : findUser s b.guest_user_id = some w)
    (hd0 : (s.debtors.filter (fun d =>
        d.property_id == b.unit_id && d.email == w.email)).head? = some d0)
    (hd1 : (s.debtors.filter (fun d =>
        d.property_id == b.unit_id && d.email == w.email
          && d.owner_id == b.guest_user_id)).head? = some d1)
    (hne : (d1.id != d0.id) = true) :
    (izipay_webhook s req clk).2 = .success bpid (some "PAID") ∧
    (izipay_webhook s req clk).1.bookings =
      (applyBookingUpdate s b.id (some "PAID")
        (lookupCode s.process_status "BOOKING_CONFIRMED")).bookings ∧
    (izipay_webhook s req clk).1.debtors = s.debtors ∧
    (izipay_webhook s req clk).1.payments =
      s.payments ++ [izPaidRow s d0.id s.nextId req clk,
        izPaidRow s d1.id (s.nextId + 2) req clk] ∧
    (izipay_webhook s req clk).1.payment_details =
      s.payment_details ++ [izPaidDetail (s.nextId + 1) s.nextId w req u.owner_id,
        izPaidDetail (s.nextId + 3) (s.nextId + 2) w req b.guest_user_id] ∧
    (izipay_webhook s req clk).1.notifications = s.notifications ∧
    (izipay_webhook s req clk).1.nextId = s.nextId + 4 := by
  simp [izipay_webhook, izCreatePaymentRecords, optTruthy,
    izNewPaymentStatus, izNewBookingStatus,
    horder, hstat, h0, hext, hbkg, hunit, huser, hd0, hd1, hne,
    izPaidRow, izPaidDetail]

/-- finished branch of the NOWPayments provider: the invoice is marked PAID
and the linked payment stamped, whatever the previous invoice status. -/
theorem prov_finished (s : DBState) (p : ProviderPayload) (now oid : String)
    (inv : Invoice)
    (ho : p.order_id = some oid)
    (hinv : findInvoice s oid = some inv)
    (hps : p.payment_status = some "finished") :
    NOWPaymentsProvider.process_webhook s p now =
      (updatePaymentPaid (updateInvoicePaid s inv.id now p) inv.payment_id now,
       .processed (some "PAID")) := by
  simp [NOWPaymentsProvider.process_webhook, ho, hinv, hps]

theorem prov_failed (s : DBState) (p : ProviderPayload) (now oid : String)
    (inv : Invoice)
    (ho : p.order_id = some oid)
    (hinv : findInvoice s oid = some inv)
    (hps : p.payment_status = some "failed") :
    NOWPaymentsProvider.process_webhook s p now =
      (updateInvoiceStatusMeta s inv.id "FAILED" p, .processed (some "FAILED")) := by
  simp [NOWPaymentsProvider.process_webhook, ho, hinv, hps]

theorem prov_expired (s : DBState) (p : ProviderPayload) (now oid : String)
    (inv : Invoice)
    (ho : p.order_id = some oid)
    (hinv : findInvoice s oid = some inv)
    (hps : p.payment_status = some "expired") :
    NOWPaymentsProvider.process_webhook s p now =
      (updateInvoiceStatusMeta s inv.id "EXPIRED" p, .processed (some "EXPIRED")) := by
  simp [NOWPaymentsProvider.process_webhook, ho, hinv, hps]

/-- Any other status leaves the state untouched and reports PENDING. -/
theorem prov_other (s : DBState) (p : ProviderPayload) (now oid : String)
    (inv : Invoice)
    (ho : p.order_id = some oid)
    (hinv : findInvoice s oid = some inv)
    (h1 : (p.payment_status == some "finished") = false)
    (h2 : (p.payment_status == some "failed") = false)
    (h3 : (p.payment_status == some "expired") = false) :
    NOWPaymentsProvider.process_webhook s p now = (s, .processed (some "PENDING")) := by
  simp [NOWPaymentsProvider.process_webhook, ho, hinv, h1, h2, h3]

/-- Unknown order reference: acknowledged ignored with zero mutation. -/
theorem prov_unknown (s : DBState) (p : ProviderPayload) (now oid : String)
    (ho : p.order_id = some oid)
    (hinv : findInvoice s oid = none) :
    NOWPaymentsProvider.process_webhook s p now =
      (s, .ignored "Invoice not found") := by
  simp [NOWPaymentsProvider.process_webhook, ho, hinv]

/-- An updated invoice row carrying the updated id is PAID and stamped. -/
theorem updateInvoicePaid_row (s : DBState) (invId : Nat) (now : String)
    (p : ProviderPayload) (row : Invoice)
    (hrow : row ∈ (updateInvoicePaid s invId now p).invoices)
    (hid : row.id = invId) :
    row.status = "PAID" ∧ row.paid_at = some now ∧ row.metadata = some p := by
  simp only [updateInvoicePaid, List.mem_map] at hrow
  obtain ⟨x, _, hfx⟩ := hrow
  by_cases h : (x.id == invId) = true
  · rw [if_pos h] at hfx
    subst hfx
    exact ⟨rfl, rfl, rfl⟩
  · rw [if_neg h] at hfx
    subst hfx
    exact absurd (by simpa using hid) (by simpa using h)

theorem updateInvoiceStatusMeta_row (s : DBState) (invId : Nat) (st : String)
    (p : ProviderPayload) (row : Invoice)
    (hrow : row ∈ (updateInvoiceStatusMeta s invId st p).invoices)
    (hid : row.id = invId) :
    row.status = st ∧ row.metadata = some p := by
  simp only [updateInvoiceStatusMeta, List.mem_map] at hrow
  obtain ⟨x, _, hfx⟩ := hrow
  by_cases h : (x.id == invId) = true
  · rw [if_pos h] at hfx
    subst hfx
    exact ⟨rfl, rfl⟩
  · rw [if_neg h] at hfx
    subst hfx
    exact absurd (by simpa using hid) (by simpa using h)

/-- handle_webhook with the nowpayments provider always reaches the provider
(no signature check stands in the way) and marks the log row processed. -/
theorem handle_webhook_nowpayments (s : DBState) (p : ProviderPayload)
    (sig : Option String) (now : String) :
    handle_webhook s "nowpayments" p sig now =
      (markLogProcessed
        (NOWPaymentsProvider.process_webhook
          (insertWebhookLog s (mkLogRow s "nowpayments" p)) p now).1
        s.nextId, .ok) := by
  simp [handle_webhook, PaymentService.process_webhook]

/-- The audit row appended by the current request ends the log, marked
processed, after markLogProcessed runs on the grown log. -/
theorem markLogProcessed_insert_getLast (s : DBState) (l : WebhookLog)
    (hl : l.id = s.nextId) :
    (markLogProcessed (insertWebhookLog s l) s.nextId).webhook_logs.getLast? =
      some { l with processed := true } := by
  simp only [markLogProcessed, insertWebhookLog]
  rw [List.map_append]
  simp [hl]

/-- create_payment when the debtor exists for both lookups: the payment row
is inserted and the debtor matching (property, email, requester) has its
debt reduced by the amount, floored at zero, with the status recomputed. -/
theorem create_payment_existing (s : DBState)
    (property_id user_id : String) (amount : ℚ)
    (pm po : String) (inv_id : Option String) (ownerId : String)
    (isAdmin : Bool) (clk : Clock) (prop : UnitRow) (usr : UserRow)
    (dfirst dd : Debtor)
    (hprop : (s.units.filter (fun u => u.public_id == property_id)).head? = some prop)
    (hrole : (!isAdmin && !(prop.owner_id == ownerId)) = false)
    (huser : (s.users.filter (fun u => u.public_id == user_id)).head? = some usr)
    (hd0 : (s.debtors.filter (fun d =>
        d.property_id == prop.id && d.email == usr.email)).head? = some dfirst)
    (hdEx : (s.debtors.filter (fun d =>
        d.property_id == prop.id && d.email == usr.email
          && d.owner_id == ownerId)).head? = some dd) :
    (create_payment s property_id user_id amount pm po inv_id ownerId isAdmin clk).2 =
      .ok s.nextId ∧
    (create_payment s property_id user_id amount pm po inv_id ownerId isAdmin clk).1.debtors =
      s.debtors.map (fun x =>
        if x.id == dd.id then
          { x with
            monthly_rent := 0
            debt_amount := max 0 (dd.debt_amount - amount)
            status := if dd.debt_amount - amount ≤ 0 then "current" else "overdue"
            name := usr.full_name }
        else x) ∧
    (create_payment s property_id user_id amount pm po inv_id ownerId isAdmin clk).1.bookings =
      s.bookings ∧
    (create_payment s property_id user_id amount pm po inv_id ownerId isAdmin clk).1.notifications =
      s.notifications := by
  simp [create_payment, hprop, hrole, huser, hd0, hdEx]

/-- An updated debtor row carrying the updated id after create_payment: debt
reduced with floor at zero and status recomputed from the sign of the raw
difference. -/
theorem create_payment_debtor_row (s : DBState)
    (property_id user_id : String) (amount : ℚ)
    (pm po : String) (inv_id : Option String) (ownerId : String)
    (isAdmin : Bool) (clk : Clock) (prop : UnitRow) (usr : UserRow)
    (dfirst dd : Debtor) (row : Debtor)
    (hprop : (s.units.filter (fun u => u.public_id == property_id)).head? = some prop)
    (hrole : (!isAdmin && !(prop.owner_id == ownerId)) = false)
    (huser : (s.users.filter (fun u => u.public_id == user_id)).head? = some usr)
    (hd0 : (s.debtors.filter (fun d =>
        d.property_id == prop.id && d.email == usr.email)).head? = some dfirst)
    (hdEx : (s.debtors.filter (fun d =>
        d.property_id == prop.id && d.email == usr.email
          && d.owner_id == ownerId)).head? = some dd)
    (hrow : row ∈ (create_payment s property_id user_id amount pm po inv_id
        ownerId isAdmin clk).1.debtors)
    (hid : row.id = dd.id) :
    row.debt_amount = max 0 (dd.debt_amount - amount) ∧
    row.status = (if dd.debt_amount - amount ≤ 0 then "current" else "overdue") := by
  have h := (create_payment_existing s property_id user_id amount pm po inv_id
    ownerId isAdmin clk prop usr dfirst dd hprop hrole huser hd0 hdEx).2.1
  rw [h] at hrow
  simp only [List.mem_map] at hrow
  obtain ⟨x, _, hfx⟩ := hrow
  by_cases hxe : (x.id == dd.id) = true
  · rw [if_pos hxe] at hfx
    subst hfx
    exact ⟨rfl, rfl⟩
  · rw [if_neg hxe] at hfx
    subst hfx
    exact absurd (by simpa using hid) (by simpa using hxe)

/-- nowpayments_webhook on an order reference that resolves to no booking:
the 404 raised inside is swallowed by the outer handler and surfaces as a
500 error, with no state change. -/
theorem np_unknown_booking (s : DBState) (req : PaymentWebhookRequest)
    (clk : Clock) (bpid : String)
    (hdemo : strStartsWith req.order_id "demo_" = false)
    (hext : extractBookingPublicIdNP s req.order_id = some bpid)
    (hbkg : findBooking s bpid = none) :
    nowpayments_webhook s req clk =
      (s, .httpError 500 "Error procesando webhook") := by
  simp [nowpayments_webhook, nowpaymentsInner, hdemo, hext, hbkg]

/-! ## Redelivery lemmas -/

theorem bookingUpdateFn_idem (bid : Nat) (ps : Option String)
    (st : Option Nat) (x : Booking) :
    bookingUpdateFn bid ps st (bookingUpdateFn bid ps st x) =
      bookingUpdateFn bid ps st x := by
  cases st <;> by_cases h : (x.id == bid) = true <;>
    simp [bookingUpdateFn, h]

theorem bookingUpdateFn_public_id (bid : Nat) (ps : Option String)
    (st : Option Nat) (x : Booking) :
    (bookingUpdateFn bid ps st x).public_id = x.public_id := by
  by_cases h : (x.id == bid) = true <;> simp [bookingUpdateFn, h]

theorem findBooking_congr (s s' : DBState) (pid : String)
    (h : s'.bookings = s.bookings) :
    findBooking s' pid = findBooking s pid := by
  unfold findBooking
  rw [h]

theorem findUnit_congr (s s' : DBState) (uid : Nat)
    (h : s'.units = s.units) :
    findUnit s' uid = findUnit s uid := by
  unfold findUnit
  rw [h]

theorem findUser_congr (s s' : DBState) (uid : String)
    (h : s'.users = s.users) :
    findUser s' uid = findUser s uid := by
  unfold findUser
  rw [h]

theorem findBooking_applyBookingUpdate (s : DBState) (bid : Nat)
    (ps : Option String) (st : Option Nat) (pid : String) :
    findBooking (applyBookingUpdate s bid ps st) pid =
      (findBooking s pid).map (bookingUpdateFn bid ps st) := by
  unfold findBooking
  rw [applyBookingUpdate_bookings, List.filter_map]
  have hp : ((fun b : Booking => b.public_id == pid) ∘ bookingUpdateFn bid ps st)
      = (fun b : Booking => b.public_id == pid) := by
    funext x
    simp [Function.comp, bookingUpdateFn_public_id]
  rw [hp, List.head?_map]

/-! ## Claim theorems -/

theorem bookingUpdateFn_unit_id (bid : Nat) (ps : Option String)
    (st : Option Nat) (x : Booking) :
    (bookingUpdateFn bid ps st x).unit_id = x.unit_id := by
  by_cases h : (x.id == bid) = true <;> simp [bookingUpdateFn, h]

theorem bookingUpdateFn_guest_user_id (bid : Nat) (ps : Option String)
    (st : Option Nat) (x : Booking) :
    (bookingUpdateFn bid ps st x).guest_user_id = x.guest_user_id := by
  by_cases h : (x.id == bid) = true <;> simp [bookingUpdateFn, h]

theorem bookingUpdateFn_id (bid : Nat) (ps : Option String)
    (st : Option Nat) (x : Booking) :
    (bookingUpdateFn bid ps st x).id = x.id := by
  by_cases h : (x.id == bid) = true <;> simp [bookingUpdateFn, h]

theorem map_bookingUpdateFn_idem (l : List Booking) (bid : Nat)
    (ps : Option String) (st : Option Nat) :
    (l.map (bookingUpdateFn bid ps st)).map (bookingUpdateFn bid ps st) =
      l.map (bookingUpdateFn bid ps st) := by
  rw [List.map_map]
  exact List.map_congr_left (fun a _ => bookingUpdateFn_idem bid ps st a)

/-- A direct bkg_ order reference resolves without consulting the state. -/
theorem extractNP_direct (s : DBState) (oid : String)
    (hA : strStartsWith oid "ALQ-" = false)
    (hB : strStartsWith oid "bkg_" = true) :
    extractBookingPublicIdNP s oid = some oid := by
  simp [extractBookingPublicIdNP, hA, hB]

/-- C1 amended: redelivering the same finished NOWPayments webhook is not a
no-op.  The second delivery leaves the booking rows and every debtor balance
exactly as after the first, but inserts two further payment rows, two
further payment_details rows, and one further notification, answering the
same success body. -/
theorem c1_redelivery_not_idempotent (s : DBState)
    (req : PaymentWebhookRequest) (clk : Clock) (b : Booking) (u : UnitRow)
    (w : UserRow) (d0 d1 : Debtor)
    (hA : strStartsWith req.order_id "ALQ-" = false)
    (hB : strStartsWith req.order_id "bkg_" = true)
    (hD : strStartsWith req.order_id "demo_" = false)
    (hbkg : findBooking s req.order_id = some b)
    (hps : req.payment_status = "finished")
    (hunit : findUnit s b.unit_id = some u)
    (huser : findUser s b.guest_user_id = some w)
    (hd0 : (s.debtors.filter (fun d =>
        d.property_id == b.unit_id && d.email == w.email)).head? = some d0)
    (hd1 : (s.debtors.filter (fun d =>
        d.property_id == b.unit_id && d.email == w.email
          && d.owner_id == b.guest_user_id)).head? = some d1) :
    (nowpayments_webhook (nowpayments_webhook s req clk).1 req clk).1.debtors =
      s.debtors ∧
    (nowpayments_webhook (nowpayments_webhook s req clk).1 req clk).1.bookings =
      (nowpayments_webhook s req clk).1.bookings ∧
    (nowpayments_webhook (nowpayments_webhook s req clk).1 req clk).1.payments.length =
      (nowpayments_webhook s req clk).1.payments.length + 2 ∧
    (nowpayments_webhook (nowpayments_webhook s req clk).1 req clk).1.payment_details.length =
      (nowpayments_webhook s req clk).1.payment_details.length + 2 ∧
    (nowpayments_webhook (nowpayments_webhook s req clk).1 req clk).1.notifications.length =
      (nowpayments_webhook s req clk).1.notifications.length + 1 ∧
    (nowpayments_webhook (nowpayments_webhook s req clk).1 req clk).2 =
      (nowpayments_webhook s req clk).2 := by
  obtain ⟨hr1, hbk1, hdeb1, hpay1, hdet1, hnot1, hunits1, husers1, hinv1,
    hlog1, hproc1, hpstab1, hcur1, hntypes1, hnext1⟩ :=
    np_finished_apply s req clk req.order_id b u w d0 d1 hD
      (extractNP_direct s req.order_id hA hB) hbkg hps hunit huser hd0 hd1
  have hbkg2 : findBooking (nowpayments_webhook s req clk).1 req.order_id =
      some (bookingUpdateFn b.id (some "PAID")
        (lookupCode s.process_status "BOOKING_CONFIRMED") b) := by
    rw [findBooking_congr (applyBookingUpdate s b.id (some "PAID")
      (lookupCode s.process_status "BOOKING_CONFIRMED"))
      (nowpayments_webhook s req clk).1 req.order_id hbk1,
      findBooking_applyBookingUpdate, hbkg, Option.map_some']
  have hunit2 : findUnit (nowpayments_webhook s req clk).1
      (bookingUpdateFn b.id (some "PAID")
        (lookupCode s.process_status "BOOKING_CONFIRMED") b).unit_id = some u := by
    rw [bookingUpdateFn_unit_id,
      findUnit_congr s (nowpayments_webhook s req clk).1 b.unit_id hunits1]
    exact hunit
  have huser2 : findUser (nowpayments_webhook s req clk).1
      (bookingUpdateFn b.id (some "PAID")
        (lookupCode s.process_status "BOOKING_CONFIRMED") b).guest_user_id = some w := by
    rw [bookingUpdateFn_guest_user_id,
      findUser_congr s (nowpayments_webhook s req clk).1 b.guest_user_id husers1]
    exact huser
  have hd0' : ((nowpayments_webhook s req clk).1.debtors.filter (fun d =>
      d.property_id == (bookingUpdateFn b.id (some "PAID")
        (lookupCode s.process_status "BOOKING_CONFIRMED") b).unit_id
      && d.email == w.email)).head? = some d0 := by
    rw [hdeb1]
    simp only [bookingUpdateFn_unit_id]
    exact hd0
  have hd1' : ((nowpayments_webhook s req clk).1.debtors.filter (fun d =>
      d.property_id == (bookingUpdateFn b.id (some "PAID")
        (lookupCode s.process_status "BOOKING_CONFIRMED") b).unit_id
      && d.email == w.email
      && d.owner_id == (bookingUpdateFn b.id (some "PAID")
        (lookupCode s.process_status "BOOKING_CONFIRMED") b).guest_user_id)).head? =
      some d1 := by
    rw [hdeb1]
    simp only [bookingUpdateFn_unit_id, bookingUpdateFn_guest_user_id]
    exact hd1
  obtain ⟨hr2, hbk2, hdeb2, hpay2, hdet2, hnot2, hunits2, husers2, hinv2,
    hlog2, hproc2, hpstab2, hcur2, hntypes2, hnext2⟩ :=
    np_finished_apply (nowpayments_webhook s req clk).1 req clk req.order_id
      (bookingUpdateFn b.id (some "PAID")
        (lookupCode s.process_status "BOOKING_CONFIRMED") b) u w d0 d1 hD
      (extractNP_direct _ req.order_id hA hB) hbkg2 hps hunit2 huser2 hd0' hd1'
  refine ⟨?_, ?_, ?_, ?_, ?_, ?_⟩
  · rw [hdeb2, hdeb1]
  · rw [hbk2, applyBookingUpdate_bookings, bookingUpdateFn_id, hproc1, hbk1,
      applyBookingUpdate_bookings, map_bookingUpdateFn_idem]
  · rw [hpay2]
    simp
  · rw [hdet2]
    simp
  · rw [hnot2]
    simp
  · rw [hr2, hr1]

/-- C2: counterexample.  An invoice already in the terminal state FAILED,
hit by a finished event for the same order reference, is rewritten to PAID:
the terminal state is not absorbing. -/
theorem c2_counterexample :
    invoiceStatus (invState "FAILED" 100) "inv_A" = some "FAILED" ∧
    invoiceStatus ((NOWPaymentsProvider.process_webhook (invState "FAILED" 100)
      (mkPayload (some "finished") (some "inv_A") (some 100)) "T1").1) "inv_A" =
      some "PAID" := ⟨rfl, rfl⟩

/-- C2 amended: the provider applies the event-mapped status unconditionally:
finished sets PAID, failed sets FAILED and expired sets EXPIRED whatever the
prior invoice status (terminal ones included); only events with any other
status leave the invoice unchanged; the booking route likewise overwrites a
PAID booking on a later failed event. -/
theorem c2_amended (σ : String) (A : ℚ) (ps : String)
    (h1 : ((some ps : Option String) == some "finished") = false)
    (h2 : ((some ps : Option String) == some "failed") = false)
    (h3 : ((some ps : Option String) == some "expired") = false) :
    invoiceStatus ((NOWPaymentsProvider.process_webhook (invState σ A)
      (mkPayload (some "finished") (some "inv_A") none) "T1").1) "inv_A" =
      some "PAID" ∧
    invoiceStatus ((NOWPaymentsProvider.process_webhook (invState σ A)
      (mkPayload (some "failed") (some "inv_A") none) "T1").1) "inv_A" =
      some "FAILED" ∧
    invoiceStatus ((NOWPaymentsProvider.process_webhook (invState σ A)
      (mkPayload (some "expired") (some "inv_A") none) "T1").1) "inv_A" =
      some "EXPIRED" ∧
    NOWPaymentsProvider.process_webhook (invState σ A)
      (mkPayload (some ps) (some "inv_A") none) "T1" =
      (invState σ A, .processed (some "PENDING")) ∧
    ((nowpayments_webhook (mkState [] (some "PAID") (some 3) A)
      (mkNPReq "failed" A) clk0).1.bookings.map (fun b => b.payment_status)) =
      [some "FAILED"] := by
  refine ⟨rfl, rfl, rfl, ?_, rfl⟩
  exact prov_other _ _ _ "inv_A" _ rfl rfl h1 h2 h3

theorem c2_amended_witness :
    invoiceStatus ((NOWPaymentsProvider.process_webhook (invState "PAID" 100)
      (mkPayload (some "waiting") (some "inv_A") none) "T1").1) "inv_A" =
      some "PAID" ∧
    NOWPaymentsProvider.process_webhook (invState "PAID" 100)
      (mkPayload (some "waiting") (some "inv_A") none) "T1" =
      (invState "PAID" 100, .processed (some "PENDING")) :=
  ⟨rfl, (c2_amended "PAID" 100 "waiting" (by decide) (by decide)
    (by decide)).2.2.2.1⟩

/-- C4: counterexample.  Invoice inv_A has amount 100 and is PENDING; a
finished event whose paid amount 90 is far outside any tolerance of 100 is
still accepted and the invoice becomes PAID instead of staying PENDING. -/
theorem c4_counterexample :
    invoiceStatus (invState "PENDING" 100) "inv_A" = some "PENDING" ∧
    invoiceStatus ((NOWPaymentsProvider.process_webhook (invState "PENDING" 100)
      (mkPayload (some "finished") (some "inv_A") (some 90)) "T1").1) "inv_A" =
      some "PAID" := ⟨rfl, rfl⟩

/-- C4 amended: a transition to PAID happens whenever the order reference
resolves to an invoice and the event status is finished, for every invoice
amount and every paid amount: no amount or tolerance check exists.  An order
reference resolving to no invoice is acknowledged ignored with no mutation. -/
theorem c4_amended (σ : String) (A P : ℚ) :
    invoiceStatus ((NOWPaymentsProvider.process_webhook (invState σ A)
      (mkPayload (some "finished") (some "inv_A") (some P)) "T1").1) "inv_A" =
      some "PAID" ∧
    NOWPaymentsProvider.process_webhook (invState σ A)
      (mkPayload (some "finished") (some "inv_B") (some P)) "T1" =
      (invState σ A, .ignored "Invoice not found") := ⟨rfl, rfl⟩

/-- C10: an iZiPay webhook whose status is none of finished, failed or
cancelled, for an order reference resolving to a booking, still runs the
booking update with payment_status null, overwriting the previous value, and
answers success. -/
theorem c10_null_overwrite (s : DBState) (req : IzipayRequest) (clk : Clock)
    (oid ps bpid : String) (b : Booking)
    (horder : req.order_id = some oid)
    (hstat : req.payment_status = some ps)
    (h0 : (oid == "") = false)
    (h1 : (ps == "") = false)
    (hext : extractBookingPublicIdIZ oid = some bpid)
    (hbkg : findBooking s bpid = some b)
    (hf : (ps == "finished") = false)
    (hfl : (ps == "failed") = false)
    (hc : (ps == "cancelled") = false) :
    izipay_webhook s req clk =
      (applyBookingUpdate s b.id none none, .success bpid none) ∧
    ∀ row ∈ (izipay_webhook s req clk).1.bookings, row.id = b.id →
      row.payment_status = none := by
  have h := iz_other_apply s req clk oid ps bpid b horder hstat h0 h1 hext hbkg
    hf hfl hc
  refine ⟨h, ?_⟩
  intro row hrow hid
  rw [h] at hrow
  exact (applyBookingUpdate_row s b.id none none row hrow hid).1

/-- C10 witness: a waiting status on the fixture booking, previously PAID,
is overwritten to null. -/
theorem c10_null_overwrite_witness :
    izipay_webhook (mkState [] (some "PAID") (some 3) 50)
        ⟨some "bkg_1", some "z9", some "waiting", some 50, some "PEN"⟩ clk0 =
      (applyBookingUpdate (mkState [] (some "PAID") (some 3) 50) 1 none none,
       .success "bkg_1" none) :=
  (c10_null_overwrite (mkState [] (some "PAID") (some 3) 50)
    ⟨some "bkg_1", some "z9", some "waiting", some 50, some "PEN"⟩ clk0
    "bkg_1" "waiting" "bkg_1" ⟨1, "bkg_1", some 3, some "PAID", "guest-uuid", 2, 50⟩
    rfl rfl (by decide) (by decide) rfl rfl (by decide) (by decide) (by decide)).1

/-- C6: for a finished event resolved to a booking, with the
BOOKING_CONFIRMED catalog code present, the one booking update writes
payment_status PAID and the confirmed status_id together: every booking row
with the updated id carries both afterwards. -/
theorem c6_paid_confirmed_together (s : DBState)
    (req : PaymentWebhookRequest) (clk : Clock) (bpid : String) (b : Booking)
    (u : UnitRow) (w : UserRow) (d0 d1 : Debtor) (cid : Nat)
    (hdemo : strStartsWith req.order_id "demo_" = false)
    (hext : extractBookingPublicIdNP s req.order_id = some bpid)
    (hbkg : findBooking s bpid = some b)
    (hps : req.payment_status = "finished")
    (hunit : findUnit s b.unit_id = some u)
    (huser : findUser s b.guest_user_id = some w)
    (hd0 : (s.debtors.filter (fun d =>
        d.property_id == b.unit_id && d.email == w.email)).head? = some d0)
    (hd1 : (s.debtors.filter (fun d =>
        d.property_id == b.unit_id && d.email == w.email
          && d.owner_id == b.guest_user_id)).head? = some d1)
    (hcid : lookupCode s.process_status "BOOKING_CONFIRMED" = some cid) :
    ∀ row ∈ (nowpayments_webhook s req clk).1.bookings, row.id = b.id →
      row.payment_status = some "PAID" ∧ row.status_id = some cid := by
  obtain ⟨_, hbk, _⟩ :=
    np_finished_apply s req clk bpid b u w d0 d1 hdemo hext hbkg hps hunit
      huser hd0 hd1
  intro row hrow hid
  rw [hbk] at hrow
  have h := applyBookingUpdate_row s b.id (some "PAID")
    (lookupCode s.process_status "BOOKING_CONFIRMED") row hrow hid
  exact ⟨h.1, h.2 cid hcid⟩

theorem c6_paid_confirmed_together_witness :
    (⟨1, "bkg_1", some 3, some "PAID", "guest-uuid", 2, 50⟩ : Booking).payment_status =
      some "PAID" ∧
    (⟨1, "bkg_1", some 3, some "PAID", "guest-uuid", 2, 50⟩ : Booking).status_id =
      some 3 := by
  have hb : (nowpayments_webhook
      (mkState [ownerSideDebtor 100, payerSideDebtor 0]
        (some "PENDING") (some 9) 50)
      (mkNPReq "finished" 50) clk0).1.bookings =
      [⟨1, "bkg_1", some 3, some "PAID", "guest-uuid", 2, 50⟩] := rfl
  exact c6_paid_confirmed_together
    (mkState [ownerSideDebtor 100, payerSideDebtor 0] (some "PENDING") (some 9) 50)
    (mkNPReq "finished" 50) clk0 "bkg_1"
    ⟨1, "bkg_1", some 9, some "PENDING", "guest-uuid", 2, 50⟩
    ⟨2, "unt_2", "Casa Azul", "owner-uuid"⟩
    ⟨"guest-uuid", "usr_g", "Guest User", "guest@example.com", none⟩
    (ownerSideDebtor 100) (payerSideDebtor 0) 3
    (by decide) rfl rfl rfl rfl rfl rfl rfl rfl
    ⟨1, "bkg_1", some 3, some "PAID", "guest-uuid", 2, 50⟩
    (by rw [hb]; exact List.mem_cons_self _ _) rfl

/-- C8: a successfully processed finished webhook resolved to a booking, with
the two debtor lookups resolving to the owner-keyed and payer-keyed debtor
rows, inserts two payment rows for the single delivery, one per debtor, plus
two payment_details rows; the NOWPayments route books the booking total
twice, the iZiPay route books the webhook amount twice when the two debtors
differ. -/
theorem c8_two_payment_rows :
    (∀ (s : DBState) (req : PaymentWebhookRequest) (clk : Clock)
      (bpid : String) (b : Booking) (u : UnitRow) (w : UserRow) (d0 d1 : Debtor),
      strStartsWith req.order_id "demo_" = false →
      extractBookingPublicIdNP s req.order_id = some bpid →
      findBooking s bpid = some b →
      req.payment_status = "finished" →
      findUnit s b.unit_id = some u →
      findUser s b.guest_user_id = some w →
      (s.debtors.filter (fun d =>
        d.property_id == b.unit_id && d.email == w.email)).head? = some d0 →
      (s.debtors.filter (fun d =>
        d.property_id == b.unit_id && d.email == w.email
          && d.owner_id == b.guest_user_id)).head? = some d1 →
      d0.owner_id = u.owner_id →
      d1.owner_id = b.guest_user_id →
      (nowpayments_webhook s req clk).1.payments =
        s.payments ++ [npPaidRow s d0.id s.nextId b req clk,
          npPaidRow s d1.id (s.nextId + 2) b req clk] ∧
      (npPaidRow s d0.id s.nextId b req clk).debtor_id = some d0.id ∧
      (npPaidRow s d1.id (s.nextId + 2) b req clk).debtor_id = some d1.id ∧
      (npPaidRow s d0.id s.nextId b req clk).amount = some b.total_amount ∧
      (npPaidRow s d1.id (s.nextId + 2) b req clk).amount = some b.total_amount ∧
      (nowpayments_webhook s req clk).1.payment_details.length =
        s.payment_details.length + 2) ∧
    (∀ (s : DBState) (req : IzipayRequest) (clk : Clock) (oid bpid : String)
      (b : Booking) (u : UnitRow) (w : UserRow) (d0 d1 : Debtor),
      req.order_id = some oid →
      req.payment_status = some "finished" →
      (oid == "") = false →
      extractBookingPublicIdIZ oid = some bpid →
      findBooking s bpid = some b →
      findUnit s b.unit_id = some u →
      findUser s b.guest_user_id = some w →
      (s.debtors.filter (fun d =>
        d.property_id == b.unit_id && d.email == w.email)).head? = some d0 →
      (s.debtors.filter (fun d =>
        d.property_id == b.unit_id && d.email == w.email
          && d.owner_id == b.guest_user_id)).head? = some d1 →
      (d1.id != d0.id) = true →
      d0.owner_id = u.owner_id →
      d1.owner_id = b.guest_user_id →
      (izipay_webhook s req clk).1.payments =
        s.payments ++ [izPaidRow s d0.id s.nextId req clk,
          izPaidRow s d1.id (s.nextId + 2) req clk] ∧
      (izPaidRow s d0.id s.nextId req clk).debtor_id = some d0.id ∧
      (izPaidRow s d1.id (s.nextId + 2) req clk).debtor_id = some d1.id ∧
      (izPaidRow s d0.id s.nextId req clk).amount = req.amount ∧
      (izipay_webhook s req clk).1.payment_details.length =
        s.payment_details.length + 2) := by
  constructor
  · intro s req clk bpid b u w d0 d1 hdemo hext hbkg hps hunit huser hd0 hd1
      _hown _hpayer
    obtain ⟨_, _, _, hpay, hdet, _⟩ :=
      np_finished_apply s req clk bpid b u w d0 d1 hdemo hext hbkg hps hunit
        huser hd0 hd1
    refine ⟨hpay, rfl, rfl, rfl, rfl, ?_⟩
    rw [hdet]
    simp
  · intro s req clk oid bpid b u w d0 d1 horder hstat h0 hext hbkg hunit
      huser hd0 hd1 hne _hown _hpayer
    obtain ⟨_, _, _, hpay, hdet, _⟩ :=
      iz_finished_apply s req clk oid bpid b u w d0 d1 horder hstat h0 hext
        hbkg hunit huser hd0 hd1 hne
    refine ⟨hpay, rfl, rfl, rfl, ?_⟩
    rw [hdet]
    simp

theorem c8_two_payment_rows_witness :
    (nowpayments_webhook
      (mkState [ownerSideDebtor 100, payerSideDebtor 0]
        (some "PENDING") (some 9) 50)
      (mkNPReq "finished" 50) clk0).1.payments =
      (mkState [ownerSideDebtor 100, payerSideDebtor 0]
        (some "PENDING") (some 9) 50).payments ++
        [npPaidRow (mkState [ownerSideDebtor 100, payerSideDebtor 0]
          (some "PENDING") (some 9) 50) 50 100
          ⟨1, "bkg_1", some 9, some "PENDING", "guest-uuid", 2, 50⟩
          (mkNPReq "finished" 50) clk0,
         npPaidRow (mkState [ownerSideDebtor 100, payerSideDebtor 0]
          (some "PENDING") (some 9) 50) 51 102
          ⟨1, "bkg_1", some 9, some "PENDING", "guest-uuid", 2, 50⟩
          (mkNPReq "finished" 50) clk0] :=
  (c8_two_payment_rows.1
    (mkState [ownerSideDebtor 100, payerSideDebtor 0] (some "PENDING") (some 9) 50)
    (mkNPReq "finished" 50) clk0 "bkg_1"
    ⟨1, "bkg_1", some 9, some "PENDING", "guest-uuid", 2, 50⟩
    ⟨2, "unt_2", "Casa Azul", "owner-uuid"⟩
    ⟨"guest-uuid", "usr_g", "Guest User", "guest@example.com", none⟩
    (ownerSideDebtor 100) (payerSideDebtor 0)
    (by decide) rfl rfl rfl rfl rfl rfl rfl rfl rfl).1

/-- C3 amended: the webhook reconciliation path never changes any debtor
balance: a finished delivery and a non-finished delivery both leave the
debtors table exactly as it was (new debtor rows are only created when a
lookup misses, never mutating existing ones).  The max(0, debt - amount)
reduction with status recompute lives only in the manual create_payment
endpoint. -/
theorem c3_debt_conservation (s : DBState) :
    (∀ (req : PaymentWebhookRequest) (clk : Clock) (bpid : String)
      (b : Booking) (u : UnitRow) (w : UserRow) (d0 d1 : Debtor),
      strStartsWith req.order_id "demo_" = false →
      extractBookingPublicIdNP s req.order_id = some bpid →
      findBooking s bpid = some b →
      req.payment_status = "finished" →
      findUnit s b.unit_id = some u →
      findUser s b.guest_user_id = some w →
      (s.debtors.filter (fun d =>
        d.property_id == b.unit_id && d.email == w.email)).head? = some d0 →
      (s.debtors.filter (fun d =>
        d.property_id == b.unit_id && d.email == w.email
          && d.owner_id == b.guest_user_id)).head? = some d1 →
      (nowpayments_webhook s req clk).1.debtors = s.debtors) ∧
    (∀ (req : PaymentWebhookRequest) (clk : Clock) (bpid : String)
      (b : Booking),
      strStartsWith req.order_id "demo_" = false →
      extractBookingPublicIdNP s req.order_id = some bpid →
      findBooking s bpid = some b →
      (req.payment_status == "finished") = false →
      (nowpayments_webhook s req clk).1.debtors = s.debtors) ∧
    (∀ (property_id user_id : String) (amount : ℚ) (pm po : String)
      (inv_id : Option String) (ownerId : String) (isAdmin : Bool)
      (clk : Clock) (prop : UnitRow) (usr : UserRow) (dfirst dd : Debtor)
      (row : Debtor),
      (s.units.filter (fun u => u.public_id == property_id)).head? = some prop →
      (!isAdmin && !(prop.owner_id == ownerId)) = false →
      (s.users.filter (fun u => u.public_id == user_id)).head? = some usr →
      (s.debtors.filter (fun d =>
        d.property_id == prop.id && d.email == usr.email)).head? = some dfirst →
      (s.debtors.filter (fun d =>
        d.property_id == prop.id && d.email == usr.email
          && d.owner_id == ownerId)).head? = some dd →
      row ∈ (create_payment s property_id user_id amount pm po inv_id
        ownerId isAdmin clk).1.debtors →
      row.id = dd.id →
      row.debt_amount = max 0 (dd.debt_amount - amount) ∧
      row.status = (if dd.debt_amount - amount ≤ 0 then "current"
        else "overdue")) := by
  refine ⟨?_, ?_, ?_⟩
  · intro req clk bpid b u w d0 d1 hdemo hext hbkg hps hunit huser hd0 hd1
    exact (np_finished_apply s req clk bpid b u w d0 d1 hdemo hext hbkg hps
      hunit huser hd0 hd1).2.2.1
  · intro req clk bpid b hdemo hext hbkg hps
    rw [np_nonfinished_apply s req clk bpid b hdemo hext hbkg hps]
    rfl
  · intro property_id user_id amount pm po inv_id ownerId isAdmin clk prop
      usr dfirst dd row hprop hrole huser hd0 hdEx hrow hid
    exact create_payment_debtor_row s property_id user_id amount pm po inv_id
      ownerId isAdmin clk prop usr dfirst dd row hprop hrole huser hd0 hdEx
      hrow hid

/-- C5 amended: the invoices-router ingestion path acknowledges an unknown
invoice reference as ignored with processed true and zero ledger mutation,
while the provider-specific nowpayments route turns its 404 into a plain 500
error response for an unknown booking reference. -/
theorem c5_unknown_reference :
    (∀ (s : DBState) (p : ProviderPayload) (sig : Option String)
      (now oid : String),
      p.order_id = some oid →
      findInvoice s oid = none →
      NOWPaymentsProvider.process_webhook s p now =
        (s, .ignored "Invoice not found") ∧
      (handle_webhook s "nowpayments" p sig now).2 = .ok ∧
      (handle_webhook s "nowpayments" p sig now).1.invoices = s.invoices ∧
      (handle_webhook s "nowpayments" p sig now).1.payments = s.payments ∧
      (handle_webhook s "nowpayments" p sig now).1.bookings = s.bookings ∧
      (handle_webhook s "nowpayments" p sig now).1.debtors = s.debtors ∧
      (handle_webhook s "nowpayments" p sig now).1.notifications =
        s.notifications ∧
      (handle_webhook s "nowpayments" p sig now).1.webhook_logs.getLast? =
        some { mkLogRow s "nowpayments" p with processed := true }) ∧
    (∀ (s : DBState) (req : PaymentWebhookRequest) (clk : Clock)
      (bpid : String),
      strStartsWith req.order_id "demo_" = false →
      extractBookingPublicIdNP s req.order_id = some bpid →
      findBooking s bpid = none →
      nowpayments_webhook s req clk =
        (s, .httpError 500 "Error procesando webhook")) := by
  constructor
  · intro s p sig now oid ho hinv
    have hprov := prov_unknown s p now oid ho hinv
    have hinv1 : findInvoice (insertWebhookLog s (mkLogRow s "nowpayments" p))
        oid = none := by
      rw [findInvoice_insertWebhookLog]
      exact hinv
    have hprov1 := prov_unknown (insertWebhookLog s (mkLogRow s "nowpayments" p))
      p now oid ho hinv1
    refine ⟨hprov, ?_, ?_, ?_, ?_, ?_, ?_, ?_⟩
    · rw [handle_webhook_nowpayments]
    · rw [handle_webhook_nowpayments]
      simp [hprov1]
    · rw [handle_webhook_nowpayments]
      simp [hprov1]
    · rw [handle_webhook_nowpayments]
      simp [hprov1]
    · rw [handle_webhook_nowpayments]
      simp [hprov1]
    · rw [handle_webhook_nowpayments]
      simp [hprov1]
    · rw [handle_webhook_nowpayments]
      simp only [hprov1, Prod.fst]
      exact markLogProcessed_insert_getLast s (mkLogRow s "nowpayments" p) rfl
  · intro s req clk bpid hdemo hext hbkg
    exact np_unknown_booking s req clk bpid hdemo hext hbkg

/-- C7: no signature verification exists on the ingestion path: the response
and the full effect of handle_webhook are identical for every signature
value, the response is the 200 success body, and the reconciliation still
runs, marking the resolved invoice PAID for a finished event, whatever the
signature. -/
theorem c7_signature_never_verified (s : DBState) (p : ProviderPayload)
    (sig : Option String) (now oid : String) (inv : Invoice)
    (ho : p.order_id = some oid)
    (hinv : findInvoice s oid = some inv)
    (hps : p.payment_status = some "finished") :
    (∀ sig', handle_webhook s "nowpayments" p sig now =
      handle_webhook s "nowpayments" p sig' now) ∧
    (handle_webhook s "nowpayments" p sig now).2 = .ok ∧
    ∀ row ∈ (handle_webhook s "nowpayments" p sig now).1.invoices,
      row.id = inv.id → row.status = "PAID" ∧ row.paid_at = some now := by
  refine ⟨fun _ => rfl, ?_, ?_⟩
  · rw [handle_webhook_nowpayments]
  · intro row hrow hid
    rw [handle_webhook_nowpayments] at hrow
    have hinv1 : findInvoice (insertWebhookLog s (mkLogRow s "nowpayments" p))
        oid = some inv := by
      rw [findInvoice_insertWebhookLog]
      exact hinv
    rw [prov_finished _ p now oid inv ho hinv1 hps] at hrow
    simp only [markLogProcessed_invoices, updatePaymentPaid_invoices] at hrow
    have h := updateInvoicePaid_row _ inv.id now p row hrow hid
    exact ⟨h.1, h.2.1⟩

/-! ## id_generator lemmas -/

theorem splitFirst_append (pfx r : List Char) (h : '_' ∉ pfx) :
    splitFirst '_' (pfx ++ '_' :: r) = some (pfx, r) := by
  induction pfx with
  | nil => simp [splitFirst]
  | cons x xs ih =>
    have hx : (x == '_') = false := by
      have : x ≠ '_' := fun he => h (he ▸ List.mem_cons_self x xs)
      simpa using this
    have hnx : '_' ∉ xs := fun hm => h (List.mem_cons_of_mem x hm)
    simp [splitFirst, hx, ih hnx]

theorem takeWhile_append_underscore (pfx r : List Char) (h : '_' ∉ pfx) :
    (pfx ++ '_' :: r).takeWhile (fun c => c != '_') = pfx := by
  induction pfx with
  | nil => simp [List.takeWhile]
  | cons x xs ih =>
    have hx : x ≠ '_' := fun he => h (he ▸ List.mem_cons_self x xs)
    have hnx : '_' ∉ xs := fun hm => h (List.mem_cons_of_mem x hm)
    simp [List.takeWhile_cons, hx, ih hnx]

theorem randomPart_length (len : Nat) (f : Nat → Nat) :
    (randomPart len f).length = len := by
  simp [randomPart]

theorem randomPart_base62 (len : Nat) (f : Nat → Nat) :
    ∀ c ∈ randomPart len f, base62Chars.contains c = true := by
  intro c hc
  simp only [randomPart, List.mem_map, List.mem_range] at hc
  obtain ⟨i, _, hci⟩ := hc
  have hlt : f i % 62 < base62Chars.length := Nat.mod_lt _ (by decide)
  rw [List.getD_eq_getElem base62Chars '0' hlt] at hci
  subst hci
  exact List.elem_iff.mpr (base62Chars.getElem_mem hlt)

/-- C9 amended: for a non-blank prefix inside which no underscore occurs and
a length in 10..14, make_public_id returns the prefix, an underscore and
length base62 characters, and the round trip through validate_public_id and
extract_prefix succeeds; a blank prefix or an out-of-range length raises
ValueError.  (The round trip genuinely requires the prefix to be free of
underscores: see the counterexample.) -/
theorem c9_make_validate_roundtrip ( pfx : List Char) (len : Nat)
    (f : Nat → Nat)
    (hb : isBlank pfx = false)
    (hu : '_' ∉ pfx)
    (h10 : 10 ≤ len) (h14 : len ≤ 14) :
    make_public_id pfx len f = .ok (pfx ++ '_' :: randomPart len f) ∧
    (randomPart len f).length = len ∧
    (∀ c ∈ randomPart len f, base62Chars.contains c = true) ∧
    validate_public_id (pfx ++ '_' :: randomPart len f) (some pfx) = true ∧
    extract_prefix (pfx ++ '_' :: randomPart len f) = some pfx ∧
    (∀ m, m < 10 ∨ 14 < m →
      make_public_id pfx m f = .error "Length must be between 10 and 14") ∧
    (∀ (q : List Char) (m : Nat), isBlank q = true →
      make_public_id q m f = .error "Prefix cannot be empty") := by
  have hcond : (decide (len < 10) || decide (14 < len)) = false := by
    simp only [Bool.or_eq_false_iff, decide_eq_false_iff_not, Nat.not_lt]
    exact ⟨h10, h14⟩
  have hvalid : validate_public_id (pfx ++ '_' :: randomPart len f)
      (some pfx) = true := by
    unfold validate_public_id
    rw [splitFirst_append pfx (randomPart len f) hu]
    simp only [beq_self_eq_true, Bool.true_and, Bool.and_eq_true,
      decide_eq_true_eq, List.all_eq_true, randomPart_length]
    exact ⟨⟨h10, h14⟩, randomPart_base62 len f⟩
  have hvalidn : validate_public_id (pfx ++ '_' :: randomPart len f)
      none = true := by
    unfold validate_public_id
    rw [splitFirst_append pfx (randomPart len f) hu]
    simp only [Bool.true_and, Bool.and_eq_true, decide_eq_true_eq,
      List.all_eq_true, randomPart_length]
    exact ⟨⟨h10, h14⟩, randomPart_base62 len f⟩
  refine ⟨?_, randomPart_length len f, randomPart_base62 len f, hvalid, ?_, ?_, ?_⟩
  · simp [make_public_id, hb, hcond]
  · unfold extract_prefix
    rw [hvalidn, if_pos rfl]
    rw [takeWhile_append_underscore pfx (randomPart len f) hu]
  · intro m hm
    have : (decide (m < 10) || decide (14 < m)) = true := by
      rcases hm with hm | hm <;> simp [hm]
    simp [make_public_id, hb, this]
  · intro q m hq
    simp [make_public_id, hq]

theorem c9_make_validate_roundtrip_witness :
    make_public_id "pay".data 12 (fun i => i) =
      .ok ("pay".data ++ '_' :: randomPart 12 (fun i => i)) ∧
    validate_public_id ("pay".data ++ '_' :: randomPart 12 (fun i => i))
      (some "pay".data) = true ∧
    extract_prefix ("pay".data ++ '_' :: randomPart 12 (fun i => i)) =
      some "pay".data ∧
    make_public_id "pay".data 9 (fun i => i) =
      .error "Length must be between 10 and 14" ∧
    make_public_id " ".data 12 (fun i => i) =
      .error "Prefix cannot be empty" := by
  have h := c9_make_validate_roundtrip "pay".data 12 (fun i => i)
    (by decide) (by decide) (by decide) (by decide)
  exact ⟨h.1, h.2.2.2.1, h.2.2.2.2.1,
    h.2.2.2.2.2.1 9 (Or.inl (by decide)),
    h.2.2.2.2.2.2 " ".data 12 (by decide)⟩

/-- C9: counterexample.  For the non-empty prefix a_b (which contains an
underscore), make_public_id succeeds but the round trip fails:
validate_public_id rejects the produced id against the original prefix and
extract_prefix recovers a, not a_b. -/
theorem c9_counterexample :
    make_public_id "a_b".data 12 (fun _ => 0) =
      .ok ("a_b".data ++ '_' :: randomPart 12 (fun _ => 0)) ∧
    validate_public_id ("a_b".data ++ '_' :: randomPart 12 (fun _ => 0))
      (some "a_b".data) = false ∧
    extract_prefix ("a_b".data ++ '_' :: randomPart 12 (fun _ => 0)) ≠
      some "a_b".data := by
  refine ⟨rfl, by decide, by decide⟩

set_option maxHeartbeats 2000000 in
/-- C1: counterexample.  Delivering the same finished webhook twice on the
fixture state inserts two payment rows the first time and two more the
second time, and a second notification: the second delivery is not a no-op,
payment rows are inserted again, and more than one notification exists. -/
theorem c1_counterexample :
    ((nowpayments_webhook (mkState [ownerSideDebtor 100, payerSideDebtor 0]
      (some "PENDING") (some 9) 50)
      (mkNPReq "finished" 50) clk0).1.payments.length = 2) ∧
    ((nowpayments_webhook (nowpayments_webhook
      (mkState [ownerSideDebtor 100, payerSideDebtor 0]
        (some "PENDING") (some 9) 50)
      (mkNPReq "finished" 50) clk0).1
      (mkNPReq "finished" 50) clk0).1.payments.length = 4) ∧
    ((nowpayments_webhook (mkState [ownerSideDebtor 100, payerSideDebtor 0]
      (some "PENDING") (some 9) 50)
      (mkNPReq "finished" 50) clk0).1.notifications.length = 1) ∧
    ((nowpayments_webhook (nowpayments_webhook
      (mkState [ownerSideDebtor 100, payerSideDebtor 0]
        (some "PENDING") (some 9) 50)
      (mkNPReq "finished" 50) clk0).1
      (mkNPReq "finished" 50) clk0).1.notifications.length = 2) :=
  ⟨rfl, rfl, rfl, rfl⟩

theorem c1_redelivery_not_idempotent_witness :
    (nowpayments_webhook (nowpayments_webhook
      (mkState [ownerSideDebtor 100, payerSideDebtor 0]
        (some "PENDING") (some 9) 50)
      (mkNPReq "finished" 50) clk0).1
      (mkNPReq "finished" 50) clk0).1.debtors =
      (mkState [ownerSideDebtor 100, payerSideDebtor 0]
        (some "PENDING") (some 9) 50).debtors ∧
    (nowpayments_webhook (nowpayments_webhook
      (mkState [ownerSideDebtor 100, payerSideDebtor 0]
        (some "PENDING") (some 9) 50)
      (mkNPReq "finished" 50) clk0).1
      (mkNPReq "finished" 50) clk0).1.payments.length =
      (nowpayments_webhook
        (mkState [ownerSideDebtor 100, payerSideDebtor 0]
          (some "PENDING") (some 9) 50)
        (mkNPReq "finished" 50) clk0).1.payments.length + 2 := by
  have h := c1_redelivery_not_idempotent
    (mkState [ownerSideDebtor 100, payerSideDebtor 0] (some "PENDING") (some 9) 50)
    (mkNPReq "finished" 50) clk0
    ⟨1, "bkg_1", some 9, some "PENDING", "guest-uuid", 2, 50⟩
    ⟨2, "unt_2", "Casa Azul", "owner-uuid"⟩
    ⟨"guest-uuid", "usr_g", "Guest User", "guest@example.com", none⟩
    (ownerSideDebtor 100) (payerSideDebtor 0)
    (by decide) (by decide) (by decide) rfl rfl rfl rfl rfl rfl
  exact ⟨h.1, h.2.2.1⟩

/-- C3: counterexample.  Debtor 50 owes 100; a finished webhook paying 50 is
reconciled, yet the debt stays 100 instead of the claimed max(0, 100-50). -/
theorem c3_counterexample :
    (((nowpayments_webhook (mkState [ownerSideDebtor 100, payerSideDebtor 0]
      (some "PENDING") (some 9) 50)
      (mkNPReq "finished" 50) clk0).1.debtors.filter
        (fun d => d.id == 50)).head?).map (fun d => d.debt_amount) =
      some 100 ∧
    (100 : ℚ) ≠ max 0 (100 - 50) := ⟨rfl, by norm_num⟩

theorem c3_debt_conservation_witness :
    (nowpayments_webhook (mkState [ownerSideDebtor 100, payerSideDebtor 0]
      (some "PENDING") (some 9) 50) (mkNPReq "finished" 50) clk0).1.debtors =
      (mkState [ownerSideDebtor 100, payerSideDebtor 0]
        (some "PENDING") (some 9) 50).debtors ∧
    ((⟨50, "deb_50", "Guest User", "Guest User", "guest@example.com", none, 2,
        0, max 0 (100 - 30),
        if (100 : ℚ) - 30 ≤ 0 then "current" else "overdue",
        "owner-uuid"⟩ : Debtor).debt_amount =
      max 0 ((ownerSideDebtor 100).debt_amount - 30) ∧
     (⟨50, "deb_50", "Guest User", "Guest User", "guest@example.com", none, 2,
        0, max 0 (100 - 30),
        if (100 : ℚ) - 30 ≤ 0 then "current" else "overdue",
        "owner-uuid"⟩ : Debtor).status =
      (if (ownerSideDebtor 100).debt_amount - 30 ≤ 0 then "current"
        else "overdue")) ∧
    (nowpayments_webhook (mkState [ownerSideDebtor 100, payerSideDebtor 0]
      (some "PENDING") (some 9) 50) (mkNPReq "failed" 50) clk0).1.debtors =
      (mkState [ownerSideDebtor 100, payerSideDebtor 0]
        (some "PENDING") (some 9) 50).debtors := by
  refine ⟨?_, ?_, ?_⟩
  · exact (c3_debt_conservation
      (mkState [ownerSideDebtor 100, payerSideDebtor 0] (some "PENDING") (some 9) 50)).1
      (mkNPReq "finished" 50) clk0 "bkg_1"
      ⟨1, "bkg_1", some 9, some "PENDING", "guest-uuid", 2, 50⟩
      ⟨2, "unt_2", "Casa Azul", "owner-uuid"⟩
      ⟨"guest-uuid", "usr_g", "Guest User", "guest@example.com", none⟩
      (ownerSideDebtor 100) (payerSideDebtor 0)
      (by decide) rfl rfl rfl rfl rfl rfl rfl
  · have hdeb : (create_payment
        (mkState [ownerSideDebtor 100, payerSideDebtor 0]
          (some "PENDING") (some 9) 50)
        "unt_2" "usr_g" 30 "cash" "manual" none "owner-uuid" false clk0).1.debtors =
        (⟨50, "deb_50", "Guest User", "Guest User", "guest@example.com", none,
          2, 0, max 0 (100 - 30),
          if (100 : ℚ) - 30 ≤ 0 then "current" else "overdue",
          "owner-uuid"⟩ : Debtor) :: [payerSideDebtor 0] := rfl
    exact (c3_debt_conservation
      (mkState [ownerSideDebtor 100, payerSideDebtor 0] (some "PENDING") (some 9) 50)).2.2
      "unt_2" "usr_g" 30 "cash" "manual" none "owner-uuid" false clk0
      ⟨2, "unt_2", "Casa Azul", "owner-uuid"⟩
      ⟨"guest-uuid", "usr_g", "Guest User", "guest@example.com", none⟩
      (ownerSideDebtor 100) (ownerSideDebtor 100)
      ⟨50, "deb_50", "Guest User", "Guest User", "guest@example.com", none, 2,
        0, max 0 (100 - 30),
        if (100 : ℚ) - 30 ≤ 0 then "current" else "overdue", "owner-uuid"⟩
      rfl (by decide) rfl rfl rfl
      (by rw [hdeb]; exact List.mem_cons_self _ _) rfl
  · exact (c3_debt_conservation
      (mkState [ownerSideDebtor 100, payerSideDebtor 0] (some "PENDING") (some 9) 50)).2.1
      (mkNPReq "failed" 50) clk0 "bkg_1"
      ⟨1, "bkg_1", some 9, some "PENDING", "guest-uuid", 2, 50⟩
      (by decide) rfl rfl (by decide)

/-- C5: counterexample.  A well-formed finished event whose booking reference
bkg_404 resolves to nothing is answered with an HTTP 500 error by the
nowpayments route, not a success or ignored acknowledgment, and no audit
record exists on this route. -/
theorem c5_counterexample :
    nowpayments_webhook (mkState [] (some "PENDING") (some 9) 50)
      ⟨"bkg_404", "np9", "finished", 10, "PEN", none, none, none⟩ clk0 =
      (mkState [] (some "PENDING") (some 9) 50,
       .httpError 500 "Error procesando webhook") := rfl

theorem c5_unknown_reference_witness :
    NOWPaymentsProvider.process_webhook (invState "PENDING" 100)
      (mkPayload (some "finished") (some "inv_B") none) "T1" =
      (invState "PENDING" 100, .ignored "Invoice not found") ∧
    (handle_webhook (invState "PENDING" 100) "nowpayments"
      (mkPayload (some "finished") (some "inv_B") none) none "T1").2 = .ok ∧
    (handle_webhook (invState "PENDING" 100) "nowpayments"
      (mkPayload (some "finished") (some "inv_B") none) none "T1").1.invoices =
      (invState "PENDING" 100).invoices ∧
    nowpayments_webhook (mkState [] (some "PENDING") (some 9) 50)
      ⟨"bkg_404", "np9", "finished", 10, "PEN", none, none, none⟩ clk0 =
      (mkState [] (some "PENDING") (some 9) 50,
       .httpError 500 "Error procesando webhook") := by
  have ha := c5_unknown_reference.1 (invState "PENDING" 100)
    (mkPayload (some "finished") (some "inv_B") none) none "T1" "inv_B" rfl rfl
  have hb := c5_unknown_reference.2 (mkState [] (some "PENDING") (some 9) 50)
    ⟨"bkg_404", "np9", "finished", 10, "PEN", none, none, none⟩ clk0 "bkg_404"
    (by decide) rfl rfl
  exact ⟨ha.1, ha.2.1, ha.2.2.1, hb⟩

theorem c7_signature_never_verified_witness :
    handle_webhook (invState "PENDING" 100) "nowpayments"
      (mkPayload (some "finished") (some "inv_A") (some 100))
      (some "garbage") "T1" =
    handle_webhook (invState "PENDING" 100) "nowpayments"
      (mkPayload (some "finished") (some "inv_A") (some 100)) none "T1" ∧
    (handle_webhook (invState "PENDING" 100) "nowpayments"
      (mkPayload (some "finished") (some "inv_A") (some 100))
      (some "garbage") "T1").2 = .ok := by
  have h := c7_signature_never_verified (invState "PENDING" 100)
    (mkPayload (some "finished") (some "inv_A") (some 100)) (some "garbage")
    "T1" "inv_A" ⟨41, "inv_A", 40, 100, "PENDING", none, none⟩ rfl rfl rfl
  exact ⟨h.1 none, h.2.1⟩

end RentalsSdk
